import Mathlib

/-!
# Particles3D.js: entity/transform synchronisation and the frame loop

A shallow embedding of `src/Particles3D.js`.  JavaScript numbers are taken as
exact rationals, object references as indices into the sequence that owns the
object, and a thrown exception as an `Except.error` returned next to the state
reached when it was thrown.  The velocities that the code writes to a rigid body
are narrowed to 32-bit floats, as the `btVector3` of Ammo stores them.
-/

namespace Particles3D

/-! ## Numbers, vectors, matrices -/

/-- Three numeric components, as in a JavaScript array `[x, y, z]` or a `btVector3`. -/
structure Vec3 where
  x : ℚ
  y : ℚ
  z : ℚ
deriving DecidableEq

/-- Four numeric components of a quaternion, in the order `x, y, z, w` used by
both glMatrix and `btQuaternion`. -/
structure Quat where
  x : ℚ
  y : ℚ
  z : ℚ
  w : ℚ
deriving DecidableEq

/-- A glMatrix `mat4`: sixteen numbers in column-major order, field `mK` being
array element `K`. -/
structure Mat4 where
  m0 : ℚ
  m1 : ℚ
  m2 : ℚ
  m3 : ℚ
  m4 : ℚ
  m5 : ℚ
  m6 : ℚ
  m7 : ℚ
  m8 : ℚ
  m9 : ℚ
  m10 : ℚ
  m11 : ℚ
  m12 : ℚ
  m13 : ℚ
  m14 : ℚ
  m15 : ℚ
deriving DecidableEq

/-- Modelled from the spec: glMatrix's `mat4.create` is not under src/; it
returns the identity matrix, the neutral element of the spec's matrix product. -/
def mat4.create : Mat4 :=
  { m0 := 1, m1 := 0, m2 := 0, m3 := 0,
    m4 := 0, m5 := 1, m6 := 0, m7 := 0,
    m8 := 0, m9 := 0, m10 := 1, m11 := 0,
    m12 := 0, m13 := 0, m14 := 0, m15 := 1 }

/-- Modelled from the spec: glMatrix's `mat4.identity(out)` is not under src/;
it overwrites `out` with the identity matrix. -/
def mat4.identity (_out : Mat4) : Mat4 := mat4.create

/-- Modelled from the spec: glMatrix's `mat4.translate(out, a, v)` is not under
src/; it post-multiplies `a` by the spec's translation(v), which on the
column-major array rewrites only elements 12 to 15. -/
def mat4.translate (a : Mat4) (v : Vec3) : Mat4 :=
  { a with
    m12 := a.m0 * v.x + a.m4 * v.y + a.m8 * v.z + a.m12,
    m13 := a.m1 * v.x + a.m5 * v.y + a.m9 * v.z + a.m13,
    m14 := a.m2 * v.x + a.m6 * v.y + a.m10 * v.z + a.m14,
    m15 := a.m3 * v.x + a.m7 * v.y + a.m11 * v.z + a.m15 }

/-- Modelled from the spec: glMatrix's `mat4.fromQuat(out, q)` is not under
src/; it overwrites `out` with the spec's rotation(q), computed from the doubled
components `x2 = x + x`, `y2`, `z2` as glMatrix does. -/
def mat4.fromQuat (_out : Mat4) (q : Quat) : Mat4 :=
  let x := q.x
  let y := q.y
  let z := q.z
  let w := q.w
  let x2 := x + x
  let y2 := y + y
  let z2 := z + z
  let xx := x * x2
  let yx := y * x2
  let yy := y * y2
  let zx := z * x2
  let zy := z * y2
  let zz := z * z2
  let wx := w * x2
  let wy := w * y2
  let wz := w * z2
  { m0 := 1 - yy - zz, m1 := yx + wz, m2 := zx - wy, m3 := 0,
    m4 := yx - wz, m5 := 1 - xx - zz, m6 := zy + wx, m7 := 0,
    m8 := zx + wy, m9 := zy - wx, m10 := 1 - xx - yy, m11 := 0,
    m12 := 0, m13 := 0, m14 := 0, m15 := 1 }

/-- Modelled from the spec: glMatrix's `mat4.multiply(out, a, b)` is not under
src/; it writes the spec's matrix product `a × b`, one column of `b` at a
time. -/
def mat4.multiply (a b : Mat4) : Mat4 :=
  { m0 := b.m0 * a.m0 + b.m1 * a.m4 + b.m2 * a.m8 + b.m3 * a.m12,
    m1 := b.m0 * a.m1 + b.m1 * a.m5 + b.m2 * a.m9 + b.m3 * a.m13,
    m2 := b.m0 * a.m2 + b.m1 * a.m6 + b.m2 * a.m10 + b.m3 * a.m14,
    m3 := b.m0 * a.m3 + b.m1 * a.m7 + b.m2 * a.m11 + b.m3 * a.m15,
    m4 := b.m4 * a.m0 + b.m5 * a.m4 + b.m6 * a.m8 + b.m7 * a.m12,
    m5 := b.m4 * a.m1 + b.m5 * a.m5 + b.m6 * a.m9 + b.m7 * a.m13,
    m6 := b.m4 * a.m2 + b.m5 * a.m6 + b.m6 * a.m10 + b.m7 * a.m14,
    m7 := b.m4 * a.m3 + b.m5 * a.m7 + b.m6 * a.m11 + b.m7 * a.m15,
    m8 := b.m8 * a.m0 + b.m9 * a.m4 + b.m10 * a.m8 + b.m11 * a.m12,
    m9 := b.m8 * a.m1 + b.m9 * a.m5 + b.m10 * a.m9 + b.m11 * a.m13,
    m10 := b.m8 * a.m2 + b.m9 * a.m6 + b.m10 * a.m10 + b.m11 * a.m14,
    m11 := b.m8 * a.m3 + b.m9 * a.m7 + b.m10 * a.m11 + b.m11 * a.m15,
    m12 := b.m12 * a.m0 + b.m13 * a.m4 + b.m14 * a.m8 + b.m15 * a.m12,
    m13 := b.m12 * a.m1 + b.m13 * a.m5 + b.m14 * a.m9 + b.m15 * a.m13,
    m14 := b.m12 * a.m2 + b.m13 * a.m6 + b.m14 * a.m10 + b.m15 * a.m14,
    m15 := b.m12 * a.m3 + b.m13 * a.m7 + b.m14 * a.m11 + b.m15 * a.m15 }

/-- Modelled from the spec: glMatrix's `mat4.scale(out, a, v)` is not under
src/; it post-multiplies `a` by the spec's scale(v): columns 0, 1, 2 are
multiplied by `v.x`, `v.y`, `v.z` and column 3 is kept. -/
def mat4.scale (a : Mat4) (v : Vec3) : Mat4 :=
  { m0 := a.m0 * v.x, m1 := a.m1 * v.x, m2 := a.m2 * v.x, m3 := a.m3 * v.x,
    m4 := a.m4 * v.y, m5 := a.m5 * v.y, m6 := a.m6 * v.y, m7 := a.m7 * v.y,
    m8 := a.m8 * v.z, m9 := a.m9 * v.z, m10 := a.m10 * v.z, m11 := a.m11 * v.z,
    m12 := a.m12, m13 := a.m13, m14 := a.m14, m15 := a.m15 }

/-! ## Scene-graph entries and physics bodies -/

/-- What a JavaScript `throw` carries. -/
inductive Err where
  | typeError (what : String)
  | thrown (what : String)
deriving DecidableEq

/-- A `btTransform` as the code reads it: `getOrigin()` and `getRotation()`. -/
structure BtTransform where
  origin : Vec3
  rotation : Quat
deriving DecidableEq

/-- The `"type"` of an entry of `shapes`. -/
inductive ShapeType where
  | box
  | sphere
  | mesh
deriving DecidableEq

/-- One entry of the `shapes` array of a scene-graph node. -/
structure ShapeEntry where
  type : ShapeType
  filename : Option String
  material : String
  hidden : Bool
deriving DecidableEq

/-- A scene-graph node (`box`, `sphere`, `shape` in the source).  Fields that
the source assigns after the object literal (`ptransform`, `transform`, `body`,
`color`, `atten`) are `none` while unassigned; `body` is the index of the rigid
body in the dynamics world. -/
structure Shape where
  scale : Vec3
  pos : Vec3
  radius : Option ℚ
  velocity : Vec3
  mass : ℚ
  shapes : List ShapeEntry
  color : Option Vec3
  atten : Option Vec3
  ptransform : Option BtTransform
  transform : Option Mat4
  body : Option Nat
deriving DecidableEq

/-- Function `updateTransformation(shape)`, lines 25-46: cache the origin in `pos`, then
build `transform` by translate, multiply by the quaternion matrix, multiply by
the scale matrix.  Reading the origin of a missing `ptransform` throws. -/
def updateTransformation (shape : Shape) : Except Err Unit × Shape :=
  match shape.ptransform with
  | none => (.error (.typeError "trans is undefined"), shape)
  | some ptransform =>
    let x := ptransform.origin.x
    let y := ptransform.origin.y
    let z := ptransform.origin.z
    let shape := { shape with pos := ⟨x, y, z⟩ }
    let q := ptransform.rotation
    let TR := mat4.create
    let TR := mat4.translate TR ⟨x, y, z⟩
    let quatMat := mat4.create
    let quatMat := mat4.fromQuat quatMat ⟨q.x, q.y, q.z, q.w⟩
    let TR := mat4.multiply TR quatMat
    let SMat := mat4.create
    let SMat := mat4.identity SMat
    let SMat := mat4.scale SMat shape.scale
    let TR := mat4.multiply TR SMat
    (.ok (), { shape with transform := some TR })

/-! ## The physics engine and the scene -/

/-- The collision shape given to a rigid body. -/
inductive CollisionShape where
  | btSphereShape (radius : ℚ)
  | btConvexTriangleMeshShape (triangles : List (Option Vec3 × Option Vec3 × Option Vec3))
deriving DecidableEq

/-- The exponent search of `fround`: from the exponent `e`, with `p` the power
`2 ^ e`, step down at most `n` times and stop at the first exponent whose power of
two is at most `a`. -/
def exponentFrom : Nat → Int → ℚ → ℚ → Int
  | 0, e, _, _ => e
  | n + 1, e, p, a => if p ≤ a then e else exponentFrom n (e - 1) (p / 2) a

/-- Rounding to the nearest integer, a tie going to the even one. -/
def roundHalfEven (m : ℚ) : Int :=
  let f := ⌊m⌋
  if m - f < 1 / 2 then f
  else if 1 / 2 < m - f then f + 1
  else if f % 2 = 0 then f else f + 1

/-- Modelled from the spec: Ammo's `btVector3` is not under src/; it stores each
component as a 32-bit float, the floating-point number of the spec.  The value is
the 32-bit float nearest to `q`, a tie going to the even significand: 24
significant bits at the binary exponent of `q`, which is found from 127 downwards
and is not below -126 (denormals).  A magnitude beyond the largest 32-bit float,
which the float turns into infinity, is outside the model. -/
def fround (q : ℚ) : ℚ :=
  if q = 0 then 0
  else
    let a := if q < 0 then -q else q
    let e := exponentFrom 253 127 (2 ^ 127) a
    let ulp : ℚ := 2 ^ (e - 23)
    let r : ℚ := roundHalfEven (a / ulp) * ulp
    if q < 0 then -r else r

/-- The three components as a `btVector3` holds them. -/
def Vec3.fround (v : Vec3) : Vec3 :=
  ⟨Particles3D.fround v.x, Particles3D.fround v.y, Particles3D.fround v.z⟩

/-- A `btRigidBody` as the code uses it: the world transform held by its motion
state, the construction info as the code passes it, and the two velocities as the
body stores them. -/
structure Body where
  mass : ℚ
  worldTransform : BtTransform
  collisionShape : CollisionShape
  localInertia : Vec3
  restitution : ℚ
  linearVelocity : Vec3
  angularVelocity : Vec3
deriving DecidableEq

/-- A statement executed on one rigid body: `setAngularVelocity(v)`,
`setLinearVelocity(v)`, and the writes `getLinearVelocity().setX(v)` and
`getLinearVelocity().setY(v)` through the reference that Ammo returns. -/
inductive BodyOp where
  | setAngularVelocity (v : Vec3)
  | setLinearVelocity (v : Vec3)
  | setX (v : ℚ)
  | setY (v : ℚ)
deriving DecidableEq

/-- The effect of one statement on the body: the vector or the component goes
through a `btVector3`, so the body stores it as 32-bit floats. -/
def BodyOp.apply (body : Body) : BodyOp → Body
  | .setAngularVelocity v => { body with angularVelocity := v.fround }
  | .setLinearVelocity v => { body with linearVelocity := v.fround }
  | .setX v => { body with linearVelocity := { body.linearVelocity with x := fround v } }
  | .setY v => { body with linearVelocity := { body.linearVelocity with y := fround v } }

/-- The statements executed in order. -/
def Body.run (body : Body) (ops : List BodyOp) : Body := ops.foldl BodyOp.apply body

/-- A state-changing call on the physics engine, in the order the code makes
them; a body is named by its index in the dynamics world. -/
inductive Call where
  | addRigidBody (body : Nat)
  | stepSimulation (dt : ℚ) (maxSubSteps : Nat)
  | getWorldTransform (body : Nat)
  | onBody (body : Nat) (op : BodyOp)
deriving DecidableEq

/-- What `loadFileFromLines` returns: vertices and faces. -/
structure MeshData where
  vertices : List Vec3
  faces : List (List Nat)
deriving DecidableEq

/-- The collaborators that are not under src/, taken as parameters: Bullet's
inertia computation and solver step (which neither adds nor removes bodies), and
the mesh loader `BlockLoader.loadTxt` followed by `loadFileFromLines`, either of
which may throw. -/
structure Env where
  calculateLocalInertia : CollisionShape → ℚ → Vec3 → Vec3
  stepSimulation : ℚ → Nat → List Body → List Body
  stepSimulation_length : ∀ dt n bodies, (stepSimulation dt n bodies).length = bodies.length
  loadTxt : String → Except Err String
  loadFileFromLines : List String → Except Err MeshData

/-- An entry of `scene.materials`; `"ground"` has no `kd`. -/
structure Material where
  ka : Vec3
  kd : Option Vec3
deriving DecidableEq

/-- The `scene` object: `children` in insertion order, `lights` as references
(indices) into `children`, and the material table. -/
structure Scene where
  children : List Shape
  lights : List Nat
  materials : List (String × Material)
deriving DecidableEq

/-- The camera fields of the canvas that the code reads or writes. -/
structure Camera where
  pos : Vec3
  right : Vec3
  up : Vec3
deriving DecidableEq

/-- The canvas: its camera and the nodes handed to `parseNode`, as references
into `scene.children`. -/
structure GLCanvas where
  camera : Camera
  parsed : List Nat
  active : Bool
deriving DecidableEq

/-- The `keysDown` object read at the four key codes. -/
structure KeysDown where
  KEY_W : Bool
  KEY_S : Bool
  KEY_A : Bool
  KEY_D : Bool
deriving DecidableEq

/-- The `Particles` object together with the module-level latches `isShot1` and
`isShot2`.  `cow` and `groudon` are references into `scene.children`, assigned by
the page that owns the object; `calls` records the calls on the physics engine. -/
structure World where
  scene : Scene
  glcanvas : Option GLCanvas
  dynamicsWorld : List Body
  time : ℚ
  lastTime : ℚ
  winCon : Bool
  keysDown : Option KeysDown
  cow : Option Nat
  groudon : Option Nat
  isShot1 : Bool
  isShot2 : Bool
  calls : List Call
deriving DecidableEq

/-- Function `Particles()`, lines 48-101 and 388-389: an empty scene with the five
materials, no canvas, an empty dynamics world and the clock at `now`. -/
def Particles (now : ℚ) : World :=
  { scene :=
      { children := []
        lights := []
        materials :=
          [("redambient", { ka := ⟨7 / 10, 0, 0⟩, kd := some ⟨1, 1, 1⟩ }),
           ("blueambient", { ka := ⟨0, 0, 7 / 10⟩, kd := some ⟨1, 1, 1⟩ }),
           ("green", { ka := ⟨0, 7 / 10, 0⟩, kd := some ⟨1, 1, 1⟩ }),
           ("white", { ka := ⟨1, 1, 1⟩, kd := some ⟨1, 1, 1⟩ }),
           ("ground", { ka := ⟨2 / 10, 2 / 10, 2 / 10⟩, kd := none })] }
    glcanvas := none
    dynamicsWorld := []
    time := 0
    lastTime := now
    winCon := false
    keysDown := none
    cow := none
    groudon := none
    isShot1 := false
    isShot2 := false
    calls := [] }

/-- Function `setglcanvas(glcanvas)`, lines 83-85. -/
def setglcanvas (glcanvas : GLCanvas) (w : World) : World :=
  { w with glcanvas := some glcanvas }

/-- The rigid body behind a scene node: `children[ref].body`, when the node
exists and its body is in the dynamics world. -/
def World.bodyOf (w : World) (ref : Nat) : Option Nat :=
  match w.scene.children[ref]? with
  | none => none
  | some shape =>
    match shape.body with
    | none => none
    | some h => if h < w.dynamicsWorld.length then some h else none

/-- Execute statements on body `h` of the dynamics world, recording each. -/
def World.onBody (w : World) (h : Nat) (ops : List BodyOp) : World :=
  { w with
    dynamicsWorld :=
      match w.dynamicsWorld[h]? with
      | none => w.dynamicsWorld
      | some body => w.dynamicsWorld.set h (body.run ops)
    calls := w.calls ++ ops.map (Call.onBody h) }
/-! ## Entity factories -/

/-- Function `addSphere(pos, radius, velocity, mass, restitution, material, isLight, isHidden)`,
lines 188-240; an omitted argument is `none`.  The result is a reference to the
created sphere (its index in `scene.children`). -/
def addSphere (env : Env) (pos : Vec3) (radius : ℚ) (velocity : Vec3) (mass restitution : ℚ)
    (material : Option String) (isLight isHidden : Option Bool) (w : World) :
    Except Err Nat × World :=
  let material := material.getD "default"
  let isLight := isLight.getD false
  let isHidden := isHidden.getD false
  -- Step 1: scene graph entry
  let sphere : Shape :=
    { scale := ⟨radius, radius, radius⟩
      pos := pos
      radius := some radius
      velocity := velocity
      mass := mass
      shapes := [{ type := .sphere, filename := none, material := material, hidden := isHidden }]
      color := none
      atten := none
      ptransform := none
      transform := none
      body := none }
  let ref := w.scene.children.length
  let w := { w with scene.children := w.scene.children ++ [sphere] }
  let lit : Except Err (Shape × World) :=
    if isLight then
      match w.scene.materials.lookup material with
      | none => .error (.typeError "this.scene.materials[material] is undefined")
      | some m =>
        .ok ({ sphere with color := m.kd, atten := some ⟨1, 0, 0⟩ },
             { w with scene.lights := w.scene.lights ++ [ref] })
    else .ok (sphere, w)
  match lit with
  | .error e => (.error e, w)
  | .ok (sphere, w) =>
    -- Step 2: physics engine entry
    let colShape := CollisionShape.btSphereShape radius
    let localInertia := env.calculateLocalInertia colShape mass velocity
    let ptransform : BtTransform := { origin := pos, rotation := ⟨0, 0, 0, 1⟩ }
    let sphere := { sphere with ptransform := some ptransform }
    match updateTransformation sphere with
    | (.error e, sphere) =>
      (.error e, { w with scene.children := w.scene.children.set ref sphere })
    | (.ok _, sphere) =>
      let body : Body :=
        { mass := mass
          worldTransform := ptransform
          collisionShape := colShape
          localInertia := localInertia
          restitution := restitution
          linearVelocity := ⟨0, 0, 0⟩
          angularVelocity := ⟨0, 0, 0⟩ }
      let h := w.dynamicsWorld.length
      let sphere := { sphere with body := some h }
      (.ok ref,
        { w with
          scene.children := w.scene.children.set ref sphere
          dynamicsWorld := w.dynamicsWorld ++ [body]
          calls := w.calls ++ [.addRigidBody h] })

/-- Function `addMesh(filename, pos, velocity, mass, restitution, material, rotation, isLight,
isHidden)`, lines 273-360.  The file is loaded and parsed before anything is added;
the rotation is stored as given. -/
def addMesh (env : Env) (filename : String) (pos velocity : Vec3) (mass restitution : ℚ)
    (material : String) (rotation : Option Quat) (isLight isHidden : Option Bool) (w : World) :
    Except Err Nat × World :=
  let isLight := isLight.getD false
  let rotation := rotation.getD ⟨0, 0, 0, 1⟩
  let isHidden := isHidden.getD false
  -- Step 1: convex hull collision shape
  match env.loadTxt filename with
  | .error e => (.error e, w)
  | .ok lines =>
    match env.loadFileFromLines (lines.splitOn "\n") with
    | .error e => (.error e, w)
    | .ok res =>
      let vertices := res.vertices
      let faces := res.faces
      let btMesh := faces.map fun f =>
        ((f[0]?).bind (vertices[·]?), (f[1]?).bind (vertices[·]?), (f[2]?).bind (vertices[·]?))
      let colShape := CollisionShape.btConvexTriangleMeshShape btMesh
      -- Step 2: scene graph entry
      let shape : Shape :=
        { scale := ⟨1, 1, 1⟩
          pos := pos
          radius := none
          velocity := velocity
          mass := mass
          shapes :=
            [{ type := .mesh, filename := some filename, material := material, hidden := isHidden }]
          color := none
          atten := none
          ptransform := none
          transform := none
          body := none }
      let ref := w.scene.children.length
      let w := { w with scene.children := w.scene.children ++ [shape] }
      let lit : Except Err (Shape × World) :=
        if isLight then
          match w.scene.materials.lookup material with
          | none => .error (.typeError "this.scene.materials[material] is undefined")
          | some m =>
            .ok ({ shape with color := m.kd, atten := some ⟨1, 0, 0⟩ },
                 { w with scene.lights := w.scene.lights ++ [ref] })
        else .ok (shape, w)
      match lit with
      | .error e => (.error e, w)
      | .ok (shape, w) =>
        -- Step 3: physics engine entry
        let localInertia := env.calculateLocalInertia colShape mass velocity
        let ptransform : BtTransform := { origin := pos, rotation := rotation }
        let shape := { shape with ptransform := some ptransform }
        match updateTransformation shape with
        | (.error e, shape) =>
          (.error e, { w with scene.children := w.scene.children.set ref shape })
        | (.ok _, shape) =>
          let body : Body :=
            { mass := mass
              worldTransform := ptransform
              collisionShape := colShape
              localInertia := localInertia
              restitution := restitution
              linearVelocity := ⟨0, 0, 0⟩
              angularVelocity := ⟨0, 0, 0⟩ }
          let h := w.dynamicsWorld.length
          let shape := { shape with body := some h }
          (.ok ref,
            { w with
              scene.children := w.scene.children.set ref shape
              dynamicsWorld := w.dynamicsWorld ++ [body]
              calls := w.calls ++ [.addRigidBody h] })
/-! ## Keys, camera, and the frame step -/

/-- Key code of W (forward). -/
def KEY_W : Nat := 87
/-- Key code of S (back). -/
def KEY_S : Nat := 83
/-- Key code of A (left). -/
def KEY_A : Nat := 65
/-- Key code of D (right). -/
def KEY_D : Nat := 68

/-- The assignment `keysDown[key] = value` for one of the four key codes. -/
def KeysDown.assign (k : KeysDown) (key : Nat) (value : Bool) : KeysDown :=
  if key = Particles3D.KEY_W then { k with KEY_W := value }
  else if key = Particles3D.KEY_S then { k with KEY_S := value }
  else if key = Particles3D.KEY_D then { k with KEY_D := value }
  else if key = Particles3D.KEY_A then { k with KEY_A := value }
  else k

/-- Function `keyDown(evt)`, lines 523-529: a matching key code is recorded as down. -/
def keyDown (keyCode : Nat) (w : World) : Except Err Unit × World :=
  if keyCode = KEY_W ∨ keyCode = KEY_S ∨ keyCode = KEY_D ∨ keyCode = KEY_A then
    match w.keysDown with
    | none => (.error (.typeError "this.keysDown is undefined"), w)
    | some k => (.ok (), { w with keysDown := some (k.assign keyCode true) })
  else (.ok (), w)

/-- Function `keyUp(evt)`, lines 531-537: a matching key code is recorded as up. -/
def keyUp (keyCode : Nat) (w : World) : Except Err Unit × World :=
  if keyCode = KEY_W ∨ keyCode = KEY_S ∨ keyCode = KEY_D ∨ keyCode = KEY_A then
    match w.keysDown with
    | none => (.error (.typeError "this.keysDown is undefined"), w)
    | some k => (.ok (), { w with keysDown := some (k.assign keyCode false) })
  else (.ok (), w)

/-- Function `setupListeners()`, lines 553-559: no key is down at any of the four key codes. -/
def setupListeners (w : World) : Except Err Unit × World :=
  match w.glcanvas with
  | none => (.error (.typeError "this.glcanvas is null"), w)
  | some glcanvas =>
    (.ok (),
      { w with
        glcanvas := some { glcanvas with active := false }
        keysDown := some { KEY_W := false, KEY_S := false, KEY_A := false, KEY_D := false } })

/-- Modelled from the spec: glMatrix's `vec3.cross(out, a, b)` is not under src/; it is
the cross product `a × b`. -/
def vec3.cross (a b : Vec3) : Vec3 :=
  ⟨a.y * b.z - a.z * b.y, a.z * b.x - a.x * b.z, a.x * b.y - a.y * b.x⟩

/-- Modelled from the spec: glMatrix's `vec3.scale(out, a, b)` is not under src/; it
scales the whole vector `a` by the number `b`. -/
def vec3.scale (a : Vec3) (b : ℚ) : Vec3 := ⟨a.x * b, a.y * b, a.z * b⟩

/-- Function `getCameraVectors()`, lines 394-402: `T = U × R` from the camera of the canvas. -/
def getCameraVectors (w : World) : Except Err (Vec3 × Vec3 × Vec3) :=
  match w.glcanvas with
  | none => .error (.typeError "this.glcanvas is null")
  | some glcanvas =>
    let R := glcanvas.camera.right
    let U := glcanvas.camera.up
    let T := vec3.cross U R
    .ok (T, U, R)

/-- The control rules of `animate`, lines 470-518, as the statements executed on
`this.cow.body` in order.  With `keysDown` undefined the rule block is skipped and
the final test of the four keys throws. -/
def controlRules (keysDown : Option KeysDown) : Except Err Unit × List BodyOp :=
  let ops := [BodyOp.setAngularVelocity ⟨0, 0, 0⟩]
  match keysDown with
  | none => (.error (.typeError "this.keysDown is undefined"), ops)
  | some k =>
    let ops := if k.KEY_W then ops ++ [.setY 4, .setX 0] else ops
    let ops := if k.KEY_S then ops ++ [.setY (-4), .setX 0] else ops
    let ops := if k.KEY_D then ops ++ [.setX 4, .setY 0] else ops
    let ops := if k.KEY_A then ops ++ [.setX (-4), .setY 0] else ops
    let ops := if k.KEY_A && k.KEY_W then ops ++ [.setX (-4), .setY 2] else ops
    let ops := if k.KEY_A && k.KEY_S then ops ++ [.setX (-4), .setY (-4)] else ops
    let ops := if k.KEY_D && k.KEY_W then ops ++ [.setX 4, .setY 4] else ops
    let ops := if k.KEY_D && k.KEY_S then ops ++ [.setX 4, .setY (-4)] else ops
    let ops :=
      if !k.KEY_W && !k.KEY_S && !k.KEY_A && !k.KEY_D then
        ops ++ [.setLinearVelocity ⟨0, 0, 0⟩]
      else ops
    (.ok (), ops)

/-- What one call of `animate` receives from outside: its argument `timeDiff` (an
integer tick), the clock reading `(new Date()).getTime()`, and the four values
`Math.random()` would return, in call order. -/
structure Frame where
  timeDiff : Int
  now : ℚ
  random1 : ℚ
  random2 : ℚ
  random3 : ℚ
  random4 : ℚ
deriving DecidableEq

/-- The block "shooting from groudon" of `animate`, lines 421-449. -/
def animate.shoot (env : Env) (frame : Frame) (w : World) : Except Err Unit × World :=
  if Int.tmod frame.timeDiff 2 = 0 ∧ frame.timeDiff ≠ 0 then
    if !w.isShot1 then
      match getCameraVectors w with
      | .error e => (.error e, w)
      | .ok _ =>
        -- the position computed from the camera is overwritten
        let pos : Vec3 := ⟨0, 6, -10⟩
        match addSphere env pos (6 / 10) ⟨0, 0, 0⟩ (1 / 10) (1 / 10) (some "blueambient")
            none none w with
        | (.error e, w) => (.error e, w)
        | (.ok sphere, w) =>
          let plusOrMinus : ℚ := if frame.random1 < 1 / 2 then -1 else 1
          let plusOrMinus2 : ℚ := if frame.random2 < 1 / 2 then -1 else 1
          let Ran : Vec3 := ⟨frame.random3 * plusOrMinus, frame.random4 * plusOrMinus2, -1⟩
          let Ran := vec3.scale Ran (-4)
          match w.bodyOf sphere with
          | none => (.error (.typeError "sphere.body is undefined"), w)
          | some h =>
            let w := w.onBody h [.setLinearVelocity Ran]
            match w.glcanvas with
            | none => (.error (.typeError "this.glcanvas is null"), w)
            | some glcanvas =>
              (.ok (),
                { w with
                  glcanvas := some { glcanvas with parsed := glcanvas.parsed ++ [sphere] }
                  isShot1 := true })
    else (.ok (), w)
  else (.ok (), { w with isShot1 := false })

/-- The loop of `animate` over `scene.children`, lines 458-462: copy the world
transform of the body into `ptransform`, then `updateTransformation`.  Returns the
outcome, the children as mutated so far, and the read-back calls made. -/
def animate.readBack (bodies : List Body) : List Shape → Except Err Unit × List Shape × List Call
  | [] => (.ok (), [], [])
  | shape :: rest =>
    match shape.body with
    | none => (.error (.typeError "shape.body is undefined"), shape :: rest, [])
    | some h =>
      match bodies[h]? with
      | none => (.error (.typeError "shape.body is undefined"), shape :: rest, [])
      | some body =>
        let shape :=
          match shape.ptransform with
          | none => shape
          | some _ => { shape with ptransform := some body.worldTransform }
        match updateTransformation shape with
        | (.error e, shape) => (.error e, shape :: rest, [Call.getWorldTransform h])
        | (.ok _, shape) =>
          match animate.readBack bodies rest with
          | (r, rest, calls) => (r, shape :: rest, Call.getWorldTransform h :: calls)

/-- The start of `animate`, lines 413-418: `winCon` is cleared, then set when the
linear velocity of groudon's body is not zero.  The global `particles` that the
source reads is taken to be the object itself. -/
def animate.winCondition (w : World) : Except Err Unit × World :=
  let w := { w with winCon := false }
  match ((w.groudon.bind w.bodyOf).bind (w.dynamicsWorld[·]?)) with
  | none => (.error (.typeError "particles.groudon.body is undefined"), w)
  | some groudon =>
    let v := groudon.linearVelocity
    if v.x ≠ 0 ∨ v.y ≠ 0 ∨ v.z ≠ 0 then (.ok (), { w with winCon := true }) else (.ok (), w)

/-- The clock and the solver step of `animate`, lines 453-457. -/
def animate.step (env : Env) (frame : Frame) (w : World) : World :=
  let thisTime := frame.now
  let dt := (thisTime - w.lastTime) / 1000
  let w := { w with time := w.time + dt, lastTime := thisTime }
  { w with
    dynamicsWorld := env.stepSimulation dt 10 w.dynamicsWorld
    calls := w.calls ++ [Call.stepSimulation dt 10] }

/-- The loop of `animate` over `scene.children`, lines 458-462, on the world. -/
def animate.loop (w : World) : Except Err Unit × World :=
  match animate.readBack w.dynamicsWorld w.scene.children with
  | (r, children, calls) =>
    (r, { w with scene.children := children, calls := w.calls ++ calls })

/-- The camera placement of `animate`, lines 463-468. -/
def animate.camera (w : World) : World :=
  match w.glcanvas with
  | none => w
  | some glcanvas => { w with glcanvas := some { glcanvas with camera.pos := ⟨0, 2, 5⟩ } }

/-- The control rules of `animate`, lines 470-518, on the body of the cow. -/
def animate.control (w : World) : Except Err Unit × World :=
  match w.cow.bind w.bodyOf with
  | none => (.error (.typeError "this.cow.body is undefined"), w)
  | some h =>
    match controlRules w.keysDown with
    | (r, ops) => (r, w.onBody h ops)

/-- Function `animate(timeDiff)`, lines 411-521: the win condition, the shot from groudon,
the solver step, the read-back loop, the camera, the control rules, in the order of
the source; an exception ends the frame with the state reached. -/
def animate (env : Env) (frame : Frame) (w : World) : Except Err Unit × World :=
  match animate.winCondition w with
  | (.error e, w) => (.error e, w)
  | (.ok _, w) =>
    match animate.shoot env frame w with
    | (.error e, w) => (.error e, w)
    | (.ok _, w) =>
      match animate.loop (animate.step env frame w) with
      | (.error e, w) => (.error e, w)
      | (.ok _, w) => animate.control (animate.camera w)

/-! ## Sequences of frames -/

/-- A key event delivered to the page between two frames. -/
inductive KeyEvent where
  | down (keyCode : Nat)
  | up (keyCode : Nat)
deriving DecidableEq

/-- Deliver key events to `keyDown` and `keyUp` in order. -/
def deliver (w : World) : List KeyEvent → World
  | [] => w
  | .down keyCode :: rest => deliver (keyDown keyCode w).2 rest
  | .up keyCode :: rest => deliver (keyUp keyCode w).2 rest

/-- A sequence of frames: before each call of `animate` the key events that arrived
since the previous frame are delivered; the sequence stops at a frame that throws. -/
def runFrames (env : Env) : List (List KeyEvent × Frame) → World → Except Err Unit × World
  | [], w => (.ok (), w)
  | (events, frame) :: rest, w =>
    match animate env frame (deliver w events) with
    | (.error e, w) => (.error e, w)
    | (.ok _, w) => runFrames env rest w

/-! ## Readings of the claims -/

/-- The matrix with rows and columns that a column-major `mat4` stands for:
entry (row `i`, column `j`) is array element `4 * j + i`. -/
def Mat4.toMatrix (m : Mat4) : Matrix (Fin 4) (Fin 4) ℚ :=
  !![m.m0, m.m4, m.m8, m.m12;
     m.m1, m.m5, m.m9, m.m13;
     m.m2, m.m6, m.m10, m.m14;
     m.m3, m.m7, m.m11, m.m15]

/-- The spec's translation(p): the homogeneous matrix that adds `p`. -/
def translation (p : Vec3) : Matrix (Fin 4) (Fin 4) ℚ :=
  !![1, 0, 0, p.x;
     0, 1, 0, p.y;
     0, 0, 1, p.z;
     0, 0, 0, 1]

/-- The spec's rotation(q): the homogeneous rotation matrix of a quaternion. -/
def rotation (q : Quat) : Matrix (Fin 4) (Fin 4) ℚ :=
  !![1 - 2 * (q.y * q.y + q.z * q.z), 2 * (q.x * q.y - q.z * q.w), 2 * (q.x * q.z + q.y * q.w), 0;
     2 * (q.x * q.y + q.z * q.w), 1 - 2 * (q.x * q.x + q.z * q.z), 2 * (q.y * q.z - q.x * q.w), 0;
     2 * (q.x * q.z - q.y * q.w), 2 * (q.y * q.z + q.x * q.w), 1 - 2 * (q.x * q.x + q.y * q.y), 0;
     0, 0, 0, 1]

/-- The spec's scale(s): the homogeneous diagonal matrix of the three factors. -/
def scaling (s : Vec3) : Matrix (Fin 4) (Fin 4) ℚ :=
  !![s.x, 0, 0, 0;
     0, s.y, 0, 0;
     0, 0, s.z, 0;
     0, 0, 0, 1]

/-- An object-space point in homogeneous coordinates. -/
def homogeneous (v : Vec3) : Fin 4 → ℚ := ![v.x, v.y, v.z, 1]

/-- Scaling a point componentwise by `s`. -/
def scalePoint (s v : Vec3) : Vec3 := ⟨s.x * v.x, s.y * v.y, s.z * v.z⟩

/-- The quaternion of Mathlib with the components of `q` (real part `w`). -/
def Quat.toQuaternion (q : Quat) : Quaternion ℚ := ⟨q.w, q.x, q.y, q.z⟩

/-- Rotating a point by a quaternion: the vector part of `q * v * conj q`. -/
def rotatePoint (q : Quat) (v : Vec3) : Vec3 :=
  let r : Quaternion ℚ := q.toQuaternion * ⟨0, v.x, v.y, v.z⟩ * star q.toQuaternion
  ⟨r.imI, r.imJ, r.imK⟩

/-- Translating a point by `p`. -/
def translatePoint (p v : Vec3) : Vec3 := ⟨v.x + p.x, v.y + p.y, v.z + p.z⟩

/-- A unit quaternion: the orientation of a pose. -/
def Quat.IsUnit (q : Quat) : Prop := q.x * q.x + q.y * q.y + q.z * q.z + q.w * q.w = 1

/-- At least one of the four keys is down. -/
def KeysDown.any (k : KeysDown) : Bool := k.KEY_W || k.KEY_S || k.KEY_A || k.KEY_D

/-- The rule list of the control rules in the order of the claim: the keys a rule
needs and the X and Y velocity it assigns. -/
def ruleTable : List ((KeysDown → Bool) × ℚ × ℚ) :=
  [(fun k => k.KEY_W, 0, 4),
   (fun k => k.KEY_S, 0, -4),
   (fun k => k.KEY_D, 4, 0),
   (fun k => k.KEY_A, -4, 0),
   (fun k => k.KEY_A && k.KEY_W, -4, 2),
   (fun k => k.KEY_A && k.KEY_S, -4, -4),
   (fun k => k.KEY_D && k.KEY_W, 4, 4),
   (fun k => k.KEY_D && k.KEY_S, 4, -4)]

/-- The X and Y velocity of the last rule of the list all of whose keys are down. -/
def lastRule (k : KeysDown) : Option (ℚ × ℚ) :=
  ((ruleTable.filter fun rule => rule.1 k).getLast?).map fun rule => rule.2

/-- The mesh loader fails on `filename` with `e`: reading the file throws, or
parsing its lines does. -/
def LoaderFails (env : Env) (filename : String) (e : Err) : Prop :=
  env.loadTxt filename = .error e ∨
    ∃ lines, env.loadTxt filename = .ok lines ∧
      env.loadFileFromLines (lines.splitOn "\n") = .error e

/-- A qualifying tick of the spawn trigger: even and not zero. -/
def Qualifying (t : Int) : Prop := t % 2 = 0 ∧ t ≠ 0

instance : DecidablePred Qualifying := fun t => by unfold Qualifying; infer_instance

/-- A scene node as every factory leaves it: it has a `ptransform`, and its body is
one of the `n` bodies of the dynamics world. -/
def Shape.synced (n : Nat) (shape : Shape) : Bool :=
  shape.ptransform.isSome &&
    match shape.body with
    | none => false
    | some h => decide (h < n)

/-- A world in which `animate` can run: the canvas is set, the listeners are set up,
`cow` and `groudon` name nodes with a body, and every node came from a factory. -/
def Ready (w : World) : Prop :=
  w.glcanvas.isSome = true ∧ w.keysDown.isSome = true ∧
    (w.cow.bind w.bodyOf).isSome = true ∧ (w.groudon.bind w.bodyOf).isSome = true ∧
    ∀ shape ∈ w.scene.children, shape.synced w.dynamicsWorld.length = true

instance (w : World) : Decidable (Ready w) := by unfold Ready; infer_instance

/-- The `shapes` entry of a sphere spawned by `animate`. -/
def spawnedEntry : ShapeEntry :=
  { type := .sphere, filename := none, material := "blueambient", hidden := false }

/-- The `shapes` arrays of the entity sequence, in order. -/
def World.shapesOf (w : World) : List (List ShapeEntry) := w.scene.children.map fun s => s.shapes

/-- The ticks of a sequence of frames. -/
def ticksOf (frames : List (List KeyEvent × Frame)) : List Int :=
  frames.map fun f => f.2.timeDiff

/-- The number of spawns a latch in state `latch` allows over a sequence of ticks:
one for each qualifying tick met with the latch clear. -/
def spawnCount : Bool → List Int → Nat
  | _, [] => 0
  | latch, t :: ts =>
    if Qualifying t then (if latch then 0 else 1) + spawnCount true ts
    else spawnCount false ts

/-- The latch after a sequence of ticks. -/
def latchAfter : Bool → List Int → Bool
  | latch, [] => latch
  | _, t :: ts => latchAfter (decide (Qualifying t)) ts

/-- The number of distinct even non-zero tick values in a sequence. -/
def distinctQualifying (ticks : List Int) : Nat :=
  ((ticks.filter fun t => decide (Qualifying t)).toFinset).card

/-- The matrix that `updateTransformation` builds from a pose and a scale, by the
glMatrix calls of lines 34-44. -/
def transformOf (t : BtTransform) (scale : Vec3) : Mat4 :=
  mat4.multiply
    (mat4.multiply (mat4.translate mat4.create ⟨t.origin.x, t.origin.y, t.origin.z⟩)
      (mat4.fromQuat mat4.create ⟨t.rotation.x, t.rotation.y, t.rotation.z, t.rotation.w⟩))
    (mat4.scale (mat4.identity mat4.create) scale)

/-- A node before and after the read-back from `bodies`: the pose of its body is copied
into `ptransform`, `pos` is the origin of that pose, and `transform` is
translation * rotation * scale built from that pose and the scale of the node. -/
def ReadBack (bodies : List Body) (shape shape' : Shape) : Prop :=
  ∃ h body TR, shape.body = some h ∧ bodies[h]? = some body ∧
    shape' = { shape with
      ptransform := some body.worldTransform
      pos := body.worldTransform.origin
      transform := some TR } ∧
    TR.toMatrix = translation body.worldTransform.origin
      * rotation body.worldTransform.rotation * scaling shape.scale

/-- The read-back calls of the loop over the children, one per node in order. -/
def readBackCalls (children : List Shape) : List Call :=
  (children.filterMap fun s => s.body).map Call.getWorldTransform

/-- The order of the claim within the calls of one frame: no body is added before
the solver step. -/
def SpawnAfterStep (calls : List Call) : Prop :=
  ∀ c ∈ calls.takeWhile (fun c => !(match c with | .stepSimulation _ _ => true | _ => false)),
    (match c with | .addRigidBody _ => false | _ => true) = true

instance (calls : List Call) : Decidable (SpawnAfterStep calls) := by
  unfold SpawnAfterStep; infer_instance

/-- A solver for the examples: every body moves by its linear velocity times `dt`. -/
def envExample : Env :=
  { calculateLocalInertia := fun _ _ v => v
    stepSimulation := fun dt _ bodies => bodies.map fun b =>
      { b with
        worldTransform :=
          { b.worldTransform with
            origin :=
              ⟨b.worldTransform.origin.x + dt * b.linearVelocity.x,
               b.worldTransform.origin.y + dt * b.linearVelocity.y,
               b.worldTransform.origin.z + dt * b.linearVelocity.z⟩ } }
    stepSimulation_length := fun _ _ _ => List.length_map _ _
    loadTxt := fun _ => .error (.thrown "404")
    loadFileFromLines := fun _ => .ok ⟨[], []⟩ }

/-- A world for the examples: canvas and listeners set up, a cow and a groudon sphere. -/
def worldExample : World :=
  let w := setglcanvas
    { camera := ⟨⟨0, 3 / 2, 5⟩, ⟨1, 0, 0⟩, ⟨0, 1, 0⟩⟩, parsed := [], active := true }
    (Particles 0)
  let w := (setupListeners w).2
  let w := (addSphere envExample ⟨0, 0, 0⟩ 1 ⟨0, 0, 0⟩ 1 (1 / 2) (some "white") none none w).2
  let w := (addSphere envExample ⟨0, 6, -10⟩ 2 ⟨0, 0, 0⟩ 0 (1 / 2) (some "green")
    (some true) none w).2
  { w with cow := some 0, groudon := some 1 }

/-- A frame for the examples at tick `t` and clock reading `now` (milliseconds). -/
def frameExample (t : Int) (now : ℚ) : Frame :=
  { timeDiff := t, now := now, random1 := 1 / 4, random2 := 3 / 4, random3 := 1 / 2,
    random4 := 1 / 2 }

deriving instance DecidableEq for Except

/-- The launch velocity `Ran` that `animate` computes from the four random draws of a
frame, lines 436-439. -/
def ranOf (frame : Frame) : Vec3 :=
  vec3.scale
    ⟨frame.random3 * (if frame.random1 < 1 / 2 then -1 else 1),
     frame.random4 * (if frame.random2 < 1 / 2 then -1 else 1), -1⟩ (-4)

/-- The pose and scale used to exercise the transform theorem: a rotation about the
Z axis with cosine 7/25, a non-uniform scale. -/
def shapeExample : Shape :=
  { scale := ⟨2, 3, 4⟩
    pos := ⟨0, 0, 0⟩
    radius := none
    velocity := ⟨0, 0, 0⟩
    mass := 1
    shapes := []
    color := none
    atten := none
    ptransform := some ⟨⟨1, 2, 3⟩, ⟨0, 0, 3 / 5, 4 / 5⟩⟩
    transform := none
    body := none }

/-- A spawning frame whose first magnitude draw, `1 - 2 ^ (-26)`, is within
`2 ^ (-25)` of 1: the sign draws are 1/4 (minus) and 3/4 (plus). -/
def frameNearOne : Frame :=
  { timeDiff := 2, now := 1000, random1 := 1 / 4, random2 := 3 / 4,
    random3 := 1 - 1 / 2 ^ 26, random4 := 1 / 2 }

/-- The frames used to exercise the spawn-once theorem: one frame at tick 1, two at
tick 2, one at tick 3, with W pressed and released in between. -/
def framesExample : List (List KeyEvent × Frame) :=
  [([], frameExample 1 1000), ([.down 87], frameExample 2 2000), ([], frameExample 2 2016),
   ([.up 87], frameExample 3 3000)]

/-- The sign chosen by `Math.random() < 0.5 ? -1 : 1` from the value `r` that
`Math.random()` returned. -/
def signOf (r : ℚ) : ℚ := if r < 1 / 2 then -1 else 1

/-- The material a call of `addSphere` names: the argument, or `"default"` when it
is omitted. -/
def materialOf (material : Option String) : String := material.getD "default"

/-! ## Theorems -/
/-! ## Narrowing to 32-bit floats -/

theorem fround_zero : fround 0 = 0 := by decide!
theorem fround_two : fround 2 = 2 := by decide!
theorem fround_four : fround 4 = 4 := by decide!
theorem fround_neg_four : fround (-4) = -4 := by decide!

theorem exponentFrom_spec (a : ℚ) :
    ∀ (n : Nat) (e : Int) (p : ℚ), p = (2 : ℚ) ^ e →
      (2 : ℚ) ^ exponentFrom n e p a ≤ a ∨ exponentFrom n e p a = e - n := by
  intro n
  induction n with
  | zero => intro e p _; right; simp [exponentFrom]
  | succ n ih =>
    intro e p hp
    unfold exponentFrom
    split
    · left; rw [← hp]; assumption
    · have hp' : p / 2 = (2 : ℚ) ^ (e - 1) := by
        rw [hp, zpow_sub_one₀ (by norm_num : (2 : ℚ) ≠ 0)]
        rfl
      rcases ih (e - 1) (p / 2) hp' with h | h
      · exact Or.inl h
      · right; rw [h]; push_cast; ring

theorem exponentFrom_le_one {a : ℚ} (ha : a < 4) :
    exponentFrom 253 127 (2 ^ 127) a ≤ 1 := by
  rcases exponentFrom_spec a 253 127 (2 ^ 127) (by norm_num) with h | h
  · have h4 : (2 : ℚ) ^ exponentFrom 253 127 (2 ^ 127) a < (2 : ℚ) ^ (2 : ℤ) := by
      refine lt_of_le_of_lt h ?_
      norm_num
      exact ha
    have := (zpow_lt_zpow_iff_right₀ (by norm_num : (1 : ℚ) < 2)).mp h4
    omega
  · rw [h]; norm_num

theorem roundHalfEven_bounds (m : ℚ) : ⌊m⌋ ≤ roundHalfEven m ∧ roundHalfEven m ≤ ⌊m⌋ + 1 := by
  unfold roundHalfEven
  simp only
  split_ifs <;> constructor <;> omega

/-- Narrowing keeps a value that lies strictly between -4 and 4 between -4 and 4. -/
theorem fround_bounds {x : ℚ} (h1 : -4 < x) (h2 : x < 4) : -4 ≤ fround x ∧ fround x ≤ 4 := by
  have key : ∀ a : ℚ, 0 ≤ a → a < 4 →
      0 ≤ (roundHalfEven (a / 2 ^ (exponentFrom 253 127 (2 ^ 127) a - 23)) : ℚ)
          * 2 ^ (exponentFrom 253 127 (2 ^ 127) a - 23) ∧
        (roundHalfEven (a / 2 ^ (exponentFrom 253 127 (2 ^ 127) a - 23)) : ℚ)
          * 2 ^ (exponentFrom 253 127 (2 ^ 127) a - 23) ≤ 4 := by
    intro a ha0 ha4
    have he := exponentFrom_le_one ha4
    set e := exponentFrom 253 127 (2 ^ 127) a with hedef
    have hulp : (0 : ℚ) < 2 ^ (e - 23) := zpow_pos (by norm_num) _
    obtain ⟨k, hk⟩ : ∃ k : ℕ, (k : ℤ) = 25 - e := ⟨(25 - e).toNat, by omega⟩
    have hN : (4 : ℚ) / 2 ^ (e - 23) = ((2 ^ k : ℕ) : ℚ) := by
      rw [Nat.cast_pow, Nat.cast_ofNat, ← zpow_natCast, hk, div_eq_iff hulp.ne',
        ← zpow_add₀ (by norm_num : (2 : ℚ) ≠ 0)]
      have hsum : 25 - e + (e - 23) = 2 := by ring
      rw [hsum]
      norm_num
    have hm0 : 0 ≤ a / 2 ^ (e - 23) := div_nonneg ha0 hulp.le
    have hmN : a / 2 ^ (e - 23) < ((2 ^ k : ℕ) : ℚ) := by
      rw [← hN]
      exact div_lt_div_of_pos_right ha4 hulp
    have hfl : ⌊a / 2 ^ (e - 23)⌋ < ((2 ^ k : ℕ) : ℤ) := by
      rw [Int.floor_lt]
      exact_mod_cast hmN
    have hfl0 : 0 ≤ ⌊a / 2 ^ (e - 23)⌋ := Int.floor_nonneg.mpr hm0
    obtain ⟨hr1, hr2⟩ := roundHalfEven_bounds (a / 2 ^ (e - 23))
    have hr0 : (0 : ℤ) ≤ roundHalfEven (a / 2 ^ (e - 23)) := le_trans hfl0 hr1
    have hrN : roundHalfEven (a / 2 ^ (e - 23)) ≤ ((2 ^ k : ℕ) : ℤ) := by omega
    constructor
    · exact mul_nonneg (by exact_mod_cast hr0) hulp.le
    · have : (roundHalfEven (a / 2 ^ (e - 23)) : ℚ) ≤ ((2 ^ k : ℕ) : ℚ) := by exact_mod_cast hrN
      calc (roundHalfEven (a / 2 ^ (e - 23)) : ℚ) * 2 ^ (e - 23)
          ≤ ((2 ^ k : ℕ) : ℚ) * 2 ^ (e - 23) := mul_le_mul_of_nonneg_right this hulp.le
        _ = 4 := by rw [← hN]; field_simp
  unfold fround
  by_cases h0 : x = 0
  · simp [h0]
  · simp only [h0, if_false]
    by_cases hneg : x < 0
    · simp only [hneg, if_true]
      obtain ⟨k1, k2⟩ := key (-x) (by linarith) (by linarith)
      constructor <;> linarith
    · simp only [hneg, if_false]
      obtain ⟨k1, k2⟩ := key x (by linarith) h2
      constructor <;> linarith

theorem vec3_fround_zero : (⟨0, 0, 0⟩ : Vec3).fround = ⟨0, 0, 0⟩ := by
  simp only [Vec3.fround, fround_zero]

/-! ## Transform composition -/

theorem toMatrix_create : mat4.create.toMatrix = 1 := by
  ext i j
  fin_cases i <;> fin_cases j <;>
    simp [Mat4.toMatrix, mat4.create, Matrix.vecHead, Matrix.vecTail]

theorem toMatrix_multiply (a b : Mat4) :
    (mat4.multiply a b).toMatrix = a.toMatrix * b.toMatrix := by
  ext i j
  fin_cases i <;> fin_cases j <;>
    simp [Mat4.toMatrix, mat4.multiply, Matrix.mul_apply, Fin.sum_univ_four, Matrix.vecHead,
      Matrix.vecTail] <;> ring

theorem toMatrix_translate (a : Mat4) (v : Vec3) :
    (mat4.translate a v).toMatrix = a.toMatrix * translation v := by
  ext i j
  fin_cases i <;> fin_cases j <;>
    simp [Mat4.toMatrix, mat4.translate, translation, Matrix.mul_apply, Fin.sum_univ_four,
      Matrix.vecHead, Matrix.vecTail]

theorem toMatrix_scale (a : Mat4) (v : Vec3) :
    (mat4.scale a v).toMatrix = a.toMatrix * scaling v := by
  ext i j
  fin_cases i <;> fin_cases j <;>
    simp [Mat4.toMatrix, mat4.scale, scaling, Matrix.mul_apply, Fin.sum_univ_four,
      Matrix.vecHead, Matrix.vecTail]

theorem toMatrix_fromQuat (out : Mat4) (q : Quat) :
    (mat4.fromQuat out q).toMatrix = rotation q := by
  ext i j
  fin_cases i <;> fin_cases j <;>
    simp [Mat4.toMatrix, mat4.fromQuat, rotation, Matrix.vecHead, Matrix.vecTail] <;> ring

theorem translation_mulVec (p v : Vec3) :
    (translation p).mulVec (homogeneous v) = homogeneous (translatePoint p v) := by
  ext i
  fin_cases i <;>
    simp [translation, homogeneous, translatePoint, Matrix.mulVec, Matrix.dotProduct,
      Fin.sum_univ_four, Matrix.vecHead, Matrix.vecTail]

theorem scaling_mulVec (s v : Vec3) :
    (scaling s).mulVec (homogeneous v) = homogeneous (scalePoint s v) := by
  ext i
  fin_cases i <;>
    simp [scaling, homogeneous, scalePoint, Matrix.mulVec, Matrix.dotProduct,
      Fin.sum_univ_four, Matrix.vecHead, Matrix.vecTail]

theorem rotation_mulVec (q : Quat) (v : Vec3) (hq : q.IsUnit) :
    (rotation q).mulVec (homogeneous v) = homogeneous (rotatePoint q v) := by
  unfold Quat.IsUnit at hq
  ext i
  fin_cases i
  · simp [rotation, homogeneous, rotatePoint, Quat.toQuaternion, Matrix.mulVec,
      Matrix.dotProduct, Fin.sum_univ_four, Matrix.vecHead, Matrix.vecTail]
    linear_combination (-v.x) * hq
  · simp [rotation, homogeneous, rotatePoint, Quat.toQuaternion, Matrix.mulVec,
      Matrix.dotProduct, Fin.sum_univ_four, Matrix.vecHead, Matrix.vecTail]
    linear_combination (-v.y) * hq
  · simp [rotation, homogeneous, rotatePoint, Quat.toQuaternion, Matrix.mulVec,
      Matrix.dotProduct, Fin.sum_univ_four, Matrix.vecHead, Matrix.vecTail]
    linear_combination (-v.z) * hq
  · simp [rotation, homogeneous, Matrix.mulVec, Matrix.dotProduct, Fin.sum_univ_four,
      Matrix.vecHead, Matrix.vecTail]

theorem transformOf_toMatrix (t : BtTransform) (scale : Vec3) :
    (transformOf t scale).toMatrix
      = translation t.origin * rotation t.rotation * scaling scale := by
  simp only [transformOf, toMatrix_multiply, toMatrix_translate, toMatrix_fromQuat,
    toMatrix_scale, toMatrix_create, mat4.identity, one_mul]

/-- What `updateTransformation` computes on a shape with a transform: `pos` is the
origin and `transform` is the matrix built from the pose and the scale. -/
theorem updateTransformation_some (shape : Shape) (t : BtTransform)
    (h : shape.ptransform = some t) :
    updateTransformation shape
      = (.ok (), { shape with pos := t.origin, transform := some (transformOf t shape.scale) }) := by
  simp only [updateTransformation, h, transformOf]

/-- C1: for every pose `(p, q)` and every scale, `updateTransformation` succeeds and
the transform it stores is the matrix product translation(p) * rotation(q) * scale(s)
in that order; applied to any object-space point it gives the point scaled by `s`,
then rotated by the unit quaternion `q`, then translated by `p`. -/
theorem updateTransformation_eq_translation_rotation_scale (shape : Shape) (p : Vec3)
    (q : Quat) (hpose : shape.ptransform = some ⟨p, q⟩) :
    ∃ TR, updateTransformation shape
        = (.ok (), { shape with pos := p, transform := some TR }) ∧
      TR.toMatrix = translation p * rotation q * scaling shape.scale ∧
      ∀ v : Vec3, q.IsUnit →
        TR.toMatrix.mulVec (homogeneous v)
          = homogeneous (translatePoint p (rotatePoint q (scalePoint shape.scale v))) := by
  have h2 := transformOf_toMatrix ⟨p, q⟩ shape.scale
  refine ⟨_, updateTransformation_some shape ⟨p, q⟩ hpose, h2, ?_⟩
  intro v hq
  rw [h2, ← Matrix.mulVec_mulVec, ← Matrix.mulVec_mulVec, scaling_mulVec,
    rotation_mulVec q _ hq, translation_mulVec]

/-- C1 at a concrete pose: the point (1,0,0) goes to (39/25, 98/25, 3). -/
theorem updateTransformation_eq_translation_rotation_scale_witness :
    ∃ TR, updateTransformation shapeExample
        = (.ok (), { shapeExample with pos := ⟨1, 2, 3⟩, transform := some TR }) ∧
      TR.toMatrix.mulVec (homogeneous ⟨1, 0, 0⟩) = homogeneous ⟨39 / 25, 98 / 25, 3⟩ := by
  obtain ⟨TR, h1, _, h3⟩ :=
    updateTransformation_eq_translation_rotation_scale shapeExample ⟨1, 2, 3⟩
      ⟨0, 0, 3 / 5, 4 / 5⟩ rfl
  refine ⟨TR, h1, ?_⟩
  rw [h3 ⟨1, 0, 0⟩ (by norm_num [Quat.IsUnit])]
  norm_num [translatePoint, rotatePoint, scalePoint, shapeExample, Quat.toQuaternion]

/-! ## Control rules -/

/-- C2: for every prior linear and angular velocity, with exactly Left (A) and
Forward (W) down the control rules complete and leave the linear velocity at
(-4, 2, z), `z` being the Z velocity before the rules, and the angular velocity at
(0, 0, 0). -/
theorem controlRules_left_forward (body : Body) :
    (controlRules (some { KEY_W := true, KEY_S := false, KEY_A := true, KEY_D := false })).1
        = .ok () ∧
      (body.run (controlRules
          (some { KEY_W := true, KEY_S := false, KEY_A := true, KEY_D := false })).2).linearVelocity
        = ⟨-4, 2, body.linearVelocity.z⟩ ∧
      (body.run (controlRules
          (some { KEY_W := true, KEY_S := false, KEY_A := true, KEY_D := false })).2).angularVelocity
        = ⟨0, 0, 0⟩ := by
  simp [controlRules, Body.run, BodyOp.apply, Vec3.fround, fround_zero, fround_two, fround_four,
    fround_neg_four]

/-- C3: for every prior velocity, with none of the four keys down the control rules
complete and leave the linear velocity at exactly (0, 0, 0). -/
theorem controlRules_no_key (body : Body) :
    (controlRules (some { KEY_W := false, KEY_S := false, KEY_A := false, KEY_D := false })).1
        = .ok () ∧
      (body.run (controlRules
          (some { KEY_W := false, KEY_S := false, KEY_A := false, KEY_D := false })).2).linearVelocity
        = ⟨0, 0, 0⟩ := by
  simp [controlRules, Body.run, BodyOp.apply, Vec3.fround, fround_zero, fround_two, fround_four,
    fround_neg_four]

/-- C5: for every world, if the mesh loader fails on the filename with error `e`,
`addMesh` fails with `e` and the world is the one it was given: `scene.children`,
`scene.lights` and the dynamics world are unchanged. -/
theorem addMesh_loader_fails (env : Env) (filename : String) (pos velocity : Vec3)
    (mass restitution : ℚ) (material : String) (rotation : Option Quat)
    (isLight isHidden : Option Bool) (w : World) (e : Err)
    (hfail : LoaderFails env filename e) :
    ∃ w', addMesh env filename pos velocity mass restitution material rotation isLight
          isHidden w = (.error e, w') ∧
      w' = w ∧
      w'.scene.children = w.scene.children ∧
      w'.scene.lights = w.scene.lights ∧
      w'.dynamicsWorld = w.dynamicsWorld := by
  refine ⟨w, ?_, rfl, rfl, rfl, rfl⟩
  rcases hfail with h | ⟨lines, h1, h2⟩
  · simp only [addMesh, h]
  · simp only [addMesh, h1, h2]

/-- C5 on the example world, whose loader finds no file: the error is the loader's and
the world is unchanged. -/
theorem addMesh_loader_fails_witness :
    ∃ w', addMesh envExample "missing.off" ⟨0, 1, 0⟩ ⟨0, 0, 0⟩ 1 (1 / 2) "white" none
          (some true) none worldExample = (.error (.thrown "404"), w') ∧
      w' = worldExample ∧
      w'.scene.children = worldExample.scene.children ∧
      w'.scene.lights = worldExample.scene.lights ∧
      w'.dynamicsWorld = worldExample.dynamicsWorld :=
  addMesh_loader_fails envExample "missing.off" ⟨0, 1, 0⟩ ⟨0, 0, 0⟩ 1 (1 / 2) "white" none
    (some true) none worldExample (.thrown "404") (Or.inl rfl)

/-- C6: for every non-empty set of keys down and every prior velocity, the control
rules complete and the X and Y velocity are those of the last rule of the list
Forward, Back, Right, Left, Left+Forward, Left+Back, Right+Forward, Right+Back all of
whose keys are down; they are a function of the keys alone. -/
theorem controlRules_last_rule (k : KeysDown) (body : Body) (hany : k.any = true) :
    (controlRules (some k)).1 = .ok () ∧
      ∃ x y, lastRule k = some (x, y) ∧
        (body.run (controlRules (some k)).2).linearVelocity.x = x ∧
        (body.run (controlRules (some k)).2).linearVelocity.y = y := by
  rcases k with ⟨_ | _, _ | _, _ | _, _ | _⟩ <;>
    simp [KeysDown.any] at hany <;>
    simp [controlRules, Body.run, BodyOp.apply, lastRule, ruleTable, Vec3.fround, fround_zero,
      fround_two, fround_four, fround_neg_four]

/-- C6 at Forward alone, Right+Back and Forward+Back, from a prior velocity (9, 9, 9):
the results are (0, 4), (4, -4) and (0, -4). -/
theorem controlRules_last_rule_witness :
    ((controlRules (some ⟨true, false, false, false⟩)).1 = .ok () ∧
      ∃ x y, lastRule ⟨true, false, false, false⟩ = some (x, y) ∧
        ((Body.mk 1 ⟨⟨0, 0, 0⟩, ⟨0, 0, 0, 1⟩⟩ (.btSphereShape 1) ⟨0, 0, 0⟩ 0 ⟨9, 9, 9⟩
            ⟨0, 0, 0⟩).run (controlRules (some ⟨true, false, false, false⟩)).2).linearVelocity.x
          = x ∧
        ((Body.mk 1 ⟨⟨0, 0, 0⟩, ⟨0, 0, 0, 1⟩⟩ (.btSphereShape 1) ⟨0, 0, 0⟩ 0 ⟨9, 9, 9⟩
            ⟨0, 0, 0⟩).run (controlRules (some ⟨true, false, false, false⟩)).2).linearVelocity.y
          = y) ∧
      lastRule ⟨true, false, false, false⟩ = some (0, 4) ∧
      lastRule ⟨false, true, false, true⟩ = some (4, -4) ∧
      lastRule ⟨true, true, false, false⟩ = some (0, -4) :=
  ⟨controlRules_last_rule ⟨true, false, false, false⟩ _ (by decide),
    by simp [lastRule, ruleTable], by simp [lastRule, ruleTable], by simp [lastRule, ruleTable]⟩

/-- C7 as stated fails: with no key down and a prior velocity (0, 0, 5) the control
rules leave the Z velocity at 0, not 5. -/
theorem controlRules_z_changed_no_key :
    ¬ ∀ (k : KeysDown) (body : Body),
        (body.run (controlRules (some k)).2).linearVelocity.z = body.linearVelocity.z := by
  intro h
  have := h ⟨false, false, false, false⟩
    (Body.mk 1 ⟨⟨0, 0, 0⟩, ⟨0, 0, 0, 1⟩⟩ (.btSphereShape 1) ⟨0, 0, 0⟩ 0 ⟨0, 0, 5⟩ ⟨0, 0, 0⟩)
  simp [controlRules, Body.run, BodyOp.apply, Vec3.fround, fround_zero, fround_two, fround_four,
    fround_neg_four] at this

/-- C7 amended: for every non-empty set of keys down and every prior velocity, the Z
velocity after the control rules is the Z velocity before them. -/
theorem controlRules_z_unchanged (k : KeysDown) (body : Body) (hany : k.any = true) :
    (controlRules (some k)).1 = .ok () ∧
      (body.run (controlRules (some k)).2).linearVelocity.z = body.linearVelocity.z := by
  rcases k with ⟨_ | _, _ | _, _ | _, _ | _⟩ <;>
    simp [KeysDown.any] at hany <;>
    simp [controlRules, Body.run, BodyOp.apply, Vec3.fround, fround_zero, fround_two, fround_four,
      fround_neg_four]

/-- C7 amended, at Left+Forward from a prior velocity (1, 2, 3): Z stays 3. -/
theorem controlRules_z_unchanged_witness :
    (controlRules (some ⟨true, false, true, false⟩)).1 = .ok () ∧
      ((Body.mk 1 ⟨⟨0, 0, 0⟩, ⟨0, 0, 0, 1⟩⟩ (.btSphereShape 1) ⟨0, 0, 0⟩ 0 ⟨1, 2, 3⟩
          ⟨0, 0, 0⟩).run (controlRules (some ⟨true, false, true, false⟩)).2).linearVelocity.z
        = 3 :=
  controlRules_z_unchanged ⟨true, false, true, false⟩ _ (by decide)

/-! ## The spawn trigger and the factories -/

theorem qualifying_iff (t : Int) : (Int.tmod t 2 = 0 ∧ t ≠ 0) ↔ Qualifying t := by
  unfold Qualifying
  rw [← Int.dvd_iff_tmod_eq_zero, Int.dvd_iff_emod_eq_zero]

theorem set_concat_length {α : Type} (l : List α) (a b : α) :
    (l ++ [a]).set l.length b = l ++ [b] := by
  induction l with
  | nil => rfl
  | cons x xs ih => simp [ih]

/-- What `addSphere` does when the sphere is not a light: one node is appended, one
body is added, one call is made, nothing else changes. -/
theorem addSphere_plain (env : Env) (pos : Vec3) (radius : ℚ) (velocity : Vec3)
    (mass restitution : ℚ) (material : String) (w : World) :
    ∃ sphere body,
      addSphere env pos radius velocity mass restitution (some material) none none w
        = (.ok w.scene.children.length,
            { w with
              scene.children := w.scene.children ++ [sphere]
              dynamicsWorld := w.dynamicsWorld ++ [body]
              calls := w.calls ++ [Call.addRigidBody w.dynamicsWorld.length] }) ∧
      sphere.body = some w.dynamicsWorld.length ∧
      sphere.ptransform = some ⟨pos, ⟨0, 0, 0, 1⟩⟩ ∧
      sphere.shapes = [⟨.sphere, none, material, false⟩] ∧
      sphere.scale = ⟨radius, radius, radius⟩ ∧
      body.linearVelocity = ⟨0, 0, 0⟩ ∧ body.mass = mass ∧ body.restitution = restitution ∧
      body.collisionShape = .btSphereShape radius := by
  have h1 := updateTransformation_some
    { scale := ⟨radius, radius, radius⟩, pos := pos, radius := some radius,
      velocity := velocity, mass := mass,
      shapes := [{ type := .sphere, filename := none, material := material, hidden := false }],
      color := none, atten := none, ptransform := some ⟨pos, ⟨0, 0, 0, 1⟩⟩, transform := none,
      body := none } ⟨pos, ⟨0, 0, 0, 1⟩⟩ rfl
  refine ⟨
    { scale := ⟨radius, radius, radius⟩, pos := pos, radius := some radius,
      velocity := velocity, mass := mass,
      shapes := [{ type := .sphere, filename := none, material := material, hidden := false }],
      color := none, atten := none, ptransform := some ⟨pos, ⟨0, 0, 0, 1⟩⟩, transform := some (transformOf ⟨pos, ⟨0, 0, 0, 1⟩⟩ ⟨radius, radius, radius⟩),
      body := some w.dynamicsWorld.length },
    { mass := mass, worldTransform := ⟨pos, ⟨0, 0, 0, 1⟩⟩,
      collisionShape := .btSphereShape radius,
      localInertia := env.calculateLocalInertia (.btSphereShape radius) mass velocity,
      restitution := restitution, linearVelocity := ⟨0, 0, 0⟩, angularVelocity := ⟨0, 0, 0⟩ },
    ?_, rfl, rfl, rfl, rfl, rfl, rfl, rfl, rfl⟩
  simp only [addSphere, Option.getD_some, Option.getD_none, Bool.false_eq_true, if_false, h1,
    set_concat_length]

theorem bodyOf_eq_some {w : World} {ref h : Nat} :
    w.bodyOf ref = some h ↔
      ∃ shape, w.scene.children[ref]? = some shape ∧ shape.body = some h ∧
        h < w.dynamicsWorld.length := by
  unfold World.bodyOf
  constructor
  · intro hb
    split at hb
    · simp at hb
    · rename_i shape hs
      split at hb
      · simp at hb
      · rename_i h' hb'
        split at hb
        · simp only [Option.some.injEq] at hb
          subst hb
          exact ⟨shape, hs, hb', by assumption⟩
        · simp at hb
  · rintro ⟨shape, hs, hb, hlt⟩
    simp [hs, hb, hlt]

/-- A reference keeps its body when the handles of the nodes are kept (more nodes may
follow) and no body is removed. -/
theorem bodyOf_mono {w w' : World} {ref h : Nat} (extra : List (Option Nat))
    (hhandles : w'.scene.children.map (fun s => s.body)
      = w.scene.children.map (fun s => s.body) ++ extra)
    (hlen : w.dynamicsWorld.length ≤ w'.dynamicsWorld.length)
    (hb : w.bodyOf ref = some h) : w'.bodyOf ref = some h := by
  rw [bodyOf_eq_some] at hb ⊢
  obtain ⟨shape, hs, hbody, hlt⟩ := hb
  have hlt' : ref < (w.scene.children.map (fun s => s.body)).length := by
    rw [List.length_map]
    exact (List.getElem?_eq_some.mp hs).1
  have h1 : (w'.scene.children.map (fun s => s.body))[ref]? = some (some h) := by
    rw [hhandles, List.getElem?_append_left hlt', List.getElem?_map, hs]
    simp [hbody]
  rw [List.getElem?_map] at h1
  cases hs' : w'.scene.children[ref]? with
  | none => simp [hs'] at h1
  | some shape' =>
    simp only [hs', Option.map_some', Option.some.injEq] at h1
    exact ⟨shape', rfl, h1, lt_of_lt_of_le hlt hlen⟩

theorem isSome_bind_bodyOf_mono {w w' : World} (o o' : Option Nat) (ho : o' = o)
    (extra : List (Option Nat))
    (hhandles : w'.scene.children.map (fun s => s.body)
      = w.scene.children.map (fun s => s.body) ++ extra)
    (hlen : w.dynamicsWorld.length ≤ w'.dynamicsWorld.length)
    (hb : (o.bind w.bodyOf).isSome = true) : (o'.bind w'.bodyOf).isSome = true := by
  subst ho
  cases o' with
  | none => simp at hb
  | some ref =>
    simp only [Option.some_bind] at hb ⊢
    obtain ⟨h, hh⟩ := Option.isSome_iff_exists.mp hb
    rw [bodyOf_mono extra hhandles hlen hh]
    rfl

theorem synced_mono {n m : Nat} (hnm : n ≤ m) {shape : Shape} (h : shape.synced n = true) :
    shape.synced m = true := by
  unfold Shape.synced at h ⊢
  cases hb : shape.body with
  | none => simp [hb] at h
  | some b =>
    simp only [hb, Bool.and_eq_true, decide_eq_true_eq] at h ⊢
    exact ⟨h.1, lt_of_lt_of_le h.2 hnm⟩

/-! ## The read-back loop -/

theorem readBack_ok {bodies : List Body} :
    ∀ {l l' : List Shape} {calls : List Call},
      animate.readBack bodies l = (.ok (), l', calls) →
        List.Forall₂ (ReadBack bodies) l l' ∧ calls = readBackCalls l := by
  intro l
  induction l with
  | nil =>
    intro l' calls h
    simp only [animate.readBack, Prod.mk.injEq, true_and] at h
    obtain ⟨rfl, rfl⟩ := h
    exact ⟨List.Forall₂.nil, rfl⟩
  | cons shape rest ih =>
    intro l' calls h
    obtain ⟨scale, pos, radius, velocity, mass, shapes, color, atten, ptransform, transform,
      sbody⟩ := shape
    unfold animate.readBack at h
    cases sbody with
    | none => simp at h
    | some b =>
      cases hbody : bodies[b]? with
      | none => simp [hbody] at h
      | some body =>
        cases ptransform with
        | none => simp [hbody, updateTransformation] at h
        | some t =>
          rcases hrec : animate.readBack bodies rest with ⟨r, rest', calls'⟩
          simp only [hbody, updateTransformation, hrec, Prod.mk.injEq] at h
          obtain ⟨rfl, rfl, rfl⟩ := h
          obtain ⟨ih1, ih2⟩ := ih hrec
          refine ⟨List.Forall₂.cons ⟨b, body, _, rfl, hbody, rfl,
            transformOf_toMatrix body.worldTransform scale⟩ ih1, ?_⟩
          simp [readBackCalls, ih2]

theorem readBack_complete {bodies : List Body} :
    ∀ {l : List Shape}, (∀ shape ∈ l, shape.synced bodies.length = true) →
      (animate.readBack bodies l).1 = .ok () := by
  intro l
  induction l with
  | nil => intro _; rfl
  | cons shape rest ih =>
    intro hs
    have h1 := hs shape (List.mem_cons_self _ _)
    have h2 := ih fun s hm => hs s (List.mem_cons_of_mem _ hm)
    unfold Shape.synced at h1
    unfold animate.readBack
    cases hb : shape.body with
    | none => simp [hb] at h1
    | some b =>
      simp only [hb, Bool.and_eq_true, decide_eq_true_eq] at h1
      obtain ⟨body, hbody⟩ : ∃ body, bodies[b]? = some body :=
        ⟨bodies[b], List.getElem?_eq_getElem h1.2⟩
      obtain ⟨t, hp⟩ := Option.isSome_iff_exists.mp h1.1
      have hTR := updateTransformation_some
        { shape with ptransform := some body.worldTransform } body.worldTransform rfl
      rcases hrec : animate.readBack bodies rest with ⟨r, rest', calls'⟩
      rw [hrec] at h2
      simp only [hbody, hp, hTR, hrec]
      exact h2

theorem readBack_body {bodies : List Body} {l l' : List Shape}
    (h : List.Forall₂ (ReadBack bodies) l l') :
    l'.map (fun s => s.body) = l.map (fun s => s.body) ∧
      l'.map (fun s => s.shapes) = l.map (fun s => s.shapes) ∧
      ∀ shape ∈ l', shape.synced bodies.length = true := by
  induction h with
  | nil => simp
  | cons hab _ ih =>
    obtain ⟨b, body, TR, hb, hbody, rfl, _⟩ := hab
    obtain ⟨ih1, ih2, ih3⟩ := ih
    refine ⟨by simp [ih1], by simp [ih2], ?_⟩
    intro s hs
    rcases List.mem_cons.mp hs with rfl | hs
    · have : b < bodies.length := (List.getElem?_eq_some.mp hbody).1
      simp [Shape.synced, hb, this]
    · exact ih3 s hs

/-! ## The phases of a frame -/

theorem ready_transfer {w w' : World} (hr : Ready w)
    (hg : w'.glcanvas.isSome = true) (hk : w'.keysDown.isSome = true)
    (hcow : w'.cow = w.cow) (hgr : w'.groudon = w.groudon) (extra : List (Option Nat))
    (hhandles : w'.scene.children.map (fun s => s.body)
      = w.scene.children.map (fun s => s.body) ++ extra)
    (hlen : w.dynamicsWorld.length ≤ w'.dynamicsWorld.length)
    (hsync : ∀ shape ∈ w'.scene.children, shape.synced w'.dynamicsWorld.length = true) :
    Ready w' :=
  ⟨hg, hk, isSome_bind_bodyOf_mono _ _ hcow extra hhandles hlen hr.2.2.1,
    isSome_bind_bodyOf_mono _ _ hgr extra hhandles hlen hr.2.2.2.1, hsync⟩

theorem winCondition_ok {w w1 : World} (h : animate.winCondition w = (.ok (), w1)) :
    ∃ b, w1 = { w with winCon := b } := by
  dsimp only [animate.winCondition] at h
  split at h
  · simp at h
  · split at h
    · exact ⟨true, by simpa using h.symm⟩
    · exact ⟨false, by simpa using h.symm⟩

theorem winCondition_ready {w : World} (hr : Ready w) :
    ∃ b, animate.winCondition w = (.ok (), { w with winCon := b }) := by
  obtain ⟨h, hh⟩ := Option.isSome_iff_exists.mp hr.2.2.2.1
  obtain ⟨ref, hg, hb⟩ := Option.bind_eq_some.mp hh
  have hlt : h < w.dynamicsWorld.length := by
    obtain ⟨_, _, _, hlt⟩ := bodyOf_eq_some.mp hb
    exact hlt
  have hd : ((World.groudon { w with winCon := false }).bind
      (World.bodyOf { w with winCon := false })).bind
        (fun x => (World.dynamicsWorld { w with winCon := false })[x]?)
      = some w.dynamicsWorld[h] := by
    have hh' : (World.groudon { w with winCon := false }).bind
        (World.bodyOf { w with winCon := false }) = some h := hh
    rw [hh']
    exact List.getElem?_eq_getElem hlt
  dsimp only [animate.winCondition]
  rw [hd]
  dsimp only
  split
  · exact ⟨true, rfl⟩
  · exact ⟨false, rfl⟩

theorem shoot_idle (env : Env) (f : Frame) (w : World) (hq : ¬ Qualifying f.timeDiff) :
    animate.shoot env f w = (.ok (), { w with isShot1 := false }) := by
  unfold animate.shoot
  rw [if_neg (fun h => hq ((qualifying_iff _).mp h))]

theorem shoot_latched (env : Env) (f : Frame) (w : World) (hq : Qualifying f.timeDiff)
    (hl : w.isShot1 = true) : animate.shoot env f w = (.ok (), w) := by
  unfold animate.shoot
  rw [if_pos ((qualifying_iff _).mpr hq)]
  simp [hl]

theorem shoot_no_canvas (env : Env) (f : Frame) (w : World) (hq : Qualifying f.timeDiff)
    (hl : w.isShot1 = false) (hc : w.glcanvas = none) :
    animate.shoot env f w = (.error (.typeError "this.glcanvas is null"), w) := by
  unfold animate.shoot
  rw [if_pos ((qualifying_iff _).mpr hq)]
  simp [hl, getCameraVectors, hc]

/-- The shot: with the trigger qualifying, the latch clear and the canvas set, one
sphere and its body are added, the body is given the launch velocity, which it
stores as 32-bit floats, and the latch is set. -/
theorem shoot_spawn (env : Env) (f : Frame) (w : World) (c : GLCanvas)
    (hq : Qualifying f.timeDiff) (hl : w.isShot1 = false) (hc : w.glcanvas = some c) :
    ∃ sphere body,
      animate.shoot env f w
        = (.ok (),
            { w with
              scene.children := w.scene.children ++ [sphere]
              dynamicsWorld := w.dynamicsWorld ++ [body]
              calls := w.calls ++ [Call.addRigidBody w.dynamicsWorld.length,
                Call.onBody w.dynamicsWorld.length (.setLinearVelocity (ranOf f))]
              glcanvas := some { c with parsed := c.parsed ++ [w.scene.children.length] }
              isShot1 := true }) ∧
      sphere.body = some w.dynamicsWorld.length ∧
      sphere.ptransform = some ⟨⟨0, 6, -10⟩, ⟨0, 0, 0, 1⟩⟩ ∧
      sphere.shapes = [spawnedEntry] ∧
      sphere.scale = ⟨6 / 10, 6 / 10, 6 / 10⟩ ∧
      body.linearVelocity = (ranOf f).fround ∧ body.mass = 1 / 10 ∧
      body.restitution = 1 / 10 ∧
      body.collisionShape = .btSphereShape (6 / 10) := by
  obtain ⟨scene, glcanvas, dynamicsWorld, time, lastTime, winCon, keysDown, cow, groudon, isShot1,
    isShot2, calls⟩ := w
  simp only at hc hl
  subst hc hl
  obtain ⟨sphere, body, hadd, hsb, hsp, hss, hsc, hbv, hbm, hbr, hbc⟩ :=
    addSphere_plain env ⟨0, 6, -10⟩ (6 / 10) ⟨0, 0, 0⟩ (1 / 10) (1 / 10) "blueambient"
      ⟨scene, some c, dynamicsWorld, time, lastTime, winCon, keysDown, cow, groudon, false,
        isShot2, calls⟩
  refine ⟨sphere, body.run [.setLinearVelocity (ranOf f)], ?_, hsb, hsp, hss, hsc, rfl, hbm, hbr,
    hbc⟩
  have hbody : World.bodyOf
      ⟨{ scene with children := scene.children ++ [sphere] }, some c, dynamicsWorld ++ [body],
        time, lastTime, winCon, keysDown, cow, groudon, false, isShot2,
        calls ++ [Call.addRigidBody dynamicsWorld.length]⟩
      scene.children.length = some dynamicsWorld.length :=
    bodyOf_eq_some.mpr ⟨sphere, List.getElem?_concat_length _ _, hsb, by simp⟩
  unfold animate.shoot
  rw [if_pos ((qualifying_iff _).mpr hq)]
  simp only [Bool.not_false, if_true, getCameraVectors, hadd, hbody, World.onBody,
    List.getElem?_concat_length, set_concat_length, ranOf, List.map_cons, List.map_nil,
    List.append_assoc, List.singleton_append]

/-- The shot on a ready world: it completes, the world stays ready, the latch becomes
the trigger condition, and one spawned sphere is appended exactly when the trigger
qualifies with the latch clear. -/
theorem shoot_ready (env : Env) (f : Frame) {w : World} (hr : Ready w) :
    ∃ w2, animate.shoot env f w = (.ok (), w2) ∧ Ready w2 ∧
      w2.isShot1 = decide (Qualifying f.timeDiff) ∧
      w2.shapesOf = w.shapesOf ++ List.replicate
        (if Qualifying f.timeDiff then (if w.isShot1 then 0 else 1) else 0) [spawnedEntry] := by
  by_cases hq : Qualifying f.timeDiff
  · cases hl : w.isShot1 with
    | true =>
      exact ⟨w, shoot_latched env f w hq hl, hr, by simp [hq, hl], by simp [hq]⟩
    | false =>
      obtain ⟨c, hc⟩ := Option.isSome_iff_exists.mp hr.1
      obtain ⟨sphere, body, hshoot, hsb, hsp, hss, _⟩ := shoot_spawn env f w c hq hl hc
      refine ⟨_, hshoot, ?_, by simp [hq], by simp [hq, World.shapesOf, hss]⟩
      refine ready_transfer hr rfl hr.2.1 rfl rfl [some w.dynamicsWorld.length] (by simp [hsb])
        (by simp) ?_
      intro s hs
      rcases List.mem_append.mp hs with hs | hs
      · exact synced_mono (by simp) (hr.2.2.2.2 s hs)
      · rw [List.mem_singleton] at hs
        subst hs
        simp [Shape.synced, hsb, hsp]
  · exact ⟨_, shoot_idle env f w hq, hr, by simp [hq], by simp [hq, World.shapesOf]⟩

theorem step_ready (env : Env) (f : Frame) {w : World} (hr : Ready w) :
    Ready (animate.step env f w) := by
  refine ready_transfer hr hr.1 hr.2.1 rfl rfl [] (by simp [animate.step])
    (by simp [animate.step, env.stepSimulation_length]) ?_
  intro s hs
  have := hr.2.2.2.2 s hs
  simpa [animate.step, env.stepSimulation_length] using this

theorem loop_ok {w w3 : World} (h : animate.loop w = (.ok (), w3)) :
    ∃ children, List.Forall₂ (ReadBack w.dynamicsWorld) w.scene.children children ∧
      w3 = { w with
        scene.children := children
        calls := w.calls ++ readBackCalls w.scene.children } := by
  unfold animate.loop at h
  rcases hrb : animate.readBack w.dynamicsWorld w.scene.children with ⟨r, children, calls⟩
  simp only [hrb, Prod.mk.injEq] at h
  obtain ⟨rfl, rfl⟩ := h
  obtain ⟨h1, rfl⟩ := readBack_ok hrb
  exact ⟨children, h1, rfl⟩

theorem loop_ready {w : World} (hr : Ready w) :
    ∃ w3, animate.loop w = (.ok (), w3) ∧ Ready w3 ∧ w3.shapesOf = w.shapesOf ∧
      w3.isShot1 = w.isShot1 := by
  have hc := readBack_complete hr.2.2.2.2
  rcases hrb : animate.readBack w.dynamicsWorld w.scene.children with ⟨r, children, calls⟩
  rw [hrb] at hc
  simp only at hc
  subst hc
  have hloop : animate.loop w
      = (.ok (), { w with scene.children := children, calls := w.calls ++ calls }) := by
    simp only [animate.loop, hrb]
  obtain ⟨h1, _⟩ := readBack_ok hrb
  obtain ⟨hb, hs, hsync⟩ := readBack_body h1
  refine ⟨_, hloop, ?_, by simp [World.shapesOf, hs], rfl⟩
  exact ready_transfer hr hr.1 hr.2.1 rfl rfl [] (by simp [hb]) (le_refl _) hsync

theorem camera_ready {w : World} (hr : Ready w) : Ready (animate.camera w) := by
  obtain ⟨c, hc⟩ := Option.isSome_iff_exists.mp hr.1
  have : animate.camera w = { w with glcanvas := some { c with camera.pos := ⟨0, 2, 5⟩ } } := by
    simp only [animate.camera, hc]
  rw [this]
  exact ready_transfer hr rfl hr.2.1 rfl rfl [] (by simp) (le_refl _) hr.2.2.2.2

theorem camera_fields (w : World) :
    (animate.camera w).scene = w.scene ∧ (animate.camera w).dynamicsWorld = w.dynamicsWorld ∧
      (animate.camera w).calls = w.calls ∧ (animate.camera w).keysDown = w.keysDown ∧
      (animate.camera w).cow = w.cow ∧ (animate.camera w).isShot1 = w.isShot1 ∧
      (animate.camera w).bodyOf = w.bodyOf := by
  unfold animate.camera
  cases w.glcanvas <;> exact ⟨rfl, rfl, rfl, rfl, rfl, rfl, rfl⟩

theorem onBody_length (w : World) (h : Nat) (ops : List BodyOp) :
    (w.onBody h ops).dynamicsWorld.length = w.dynamicsWorld.length := by
  unfold World.onBody
  cases w.dynamicsWorld[h]? <;> simp

theorem onBody_ready {w : World} (hr : Ready w) (h : Nat) (ops : List BodyOp) :
    Ready (w.onBody h ops) := by
  refine ready_transfer hr hr.1 hr.2.1 rfl rfl [] (by simp [World.onBody])
    (le_of_eq (onBody_length w h ops).symm) ?_
  intro s hs
  rw [onBody_length]
  exact hr.2.2.2.2 s hs

theorem control_ok {w w' : World} (h : animate.control w = (.ok (), w')) :
    ∃ b ops, w.cow.bind w.bodyOf = some b ∧ controlRules w.keysDown = (.ok (), ops) ∧
      w' = w.onBody b ops := by
  unfold animate.control at h
  cases hb : w.cow.bind w.bodyOf with
  | none => simp [hb] at h
  | some b =>
    rcases hc : controlRules w.keysDown with ⟨r, ops⟩
    simp only [hb, hc, Prod.mk.injEq] at h
    obtain ⟨rfl, rfl⟩ := h
    exact ⟨b, ops, rfl, rfl, rfl⟩

theorem controlRules_some_ok (k : KeysDown) : (controlRules (some k)).1 = .ok () := by
  simp [controlRules]

theorem control_ready {w : World} (hr : Ready w) :
    ∃ w', animate.control w = (.ok (), w') ∧ Ready w' ∧ w'.shapesOf = w.shapesOf ∧
      w'.isShot1 = w.isShot1 := by
  obtain ⟨b, hb⟩ := Option.isSome_iff_exists.mp hr.2.2.1
  obtain ⟨k, hk⟩ := Option.isSome_iff_exists.mp hr.2.1
  have hok := controlRules_some_ok k
  rcases hc : controlRules (some k) with ⟨r, ops⟩
  rw [hc] at hok
  simp only at hok
  subst hok
  refine ⟨w.onBody b ops, ?_, onBody_ready hr b ops, rfl, rfl⟩
  simp only [animate.control, hb, hk, hc]

/-- A completed frame is the composition of its phases, in the order of the source. -/
theorem animate_ok {env : Env} {f : Frame} {w w' : World}
    (h : animate env f w = (.ok (), w')) :
    ∃ w1 w2 w3, animate.winCondition w = (.ok (), w1) ∧
      animate.shoot env f w1 = (.ok (), w2) ∧
      animate.loop (animate.step env f w2) = (.ok (), w3) ∧
      animate.control (animate.camera w3) = (.ok (), w') := by
  unfold animate at h
  rcases h1 : animate.winCondition w with ⟨r1, w1⟩
  cases r1 with
  | error e => simp [h1] at h
  | ok u1 =>
    rcases h2 : animate.shoot env f w1 with ⟨r2, w2⟩
    cases r2 with
    | error e => simp [h1, h2] at h
    | ok u2 =>
      rcases h3 : animate.loop (animate.step env f w2) with ⟨r3, w3⟩
      cases r3 with
      | error e => simp [h1, h2, h3] at h
      | ok u3 =>
        simp only [h1, h2, h3] at h
        exact ⟨w1, w2, w3, rfl, h2, h3, h⟩

/-- A frame on a ready world completes and leaves the world ready. -/
theorem animate_ready (env : Env) (f : Frame) {w : World} (hr : Ready w) :
    ∃ w', animate env f w = (.ok (), w') ∧ Ready w' ∧
      w'.isShot1 = decide (Qualifying f.timeDiff) ∧
      w'.shapesOf = w.shapesOf ++ List.replicate
        (if Qualifying f.timeDiff then (if w.isShot1 then 0 else 1) else 0) [spawnedEntry] := by
  obtain ⟨b, h1⟩ := winCondition_ready hr
  have hr1 : Ready { w with winCon := b } := hr
  obtain ⟨w2, h2, hr2, hl2, hs2⟩ := shoot_ready env f hr1
  obtain ⟨w3, h3, hr3, hs3, hl3⟩ := loop_ready (step_ready env f hr2)
  obtain ⟨w4, h4, hr4, hs4, hl4⟩ := control_ready (camera_ready hr3)
  refine ⟨w4, ?_, hr4, ?_, ?_⟩
  · simp only [animate, h1, h2, h3, h4]
  · rw [hl4, (camera_fields w3).2.2.2.2.2.1, hl3]
    exact hl2
  · rw [hs4]
    have : (animate.camera w3).shapesOf = w3.shapesOf := by
      simp only [World.shapesOf, (camera_fields w3).1]
    rw [this, hs3]
    exact hs2

/-! ## Sequences of frames -/

theorem keyDown_fields (keyCode : Nat) (w : World) :
    ∃ keys, (keyDown keyCode w).2 = { w with keysDown := keys } ∧
      (w.keysDown.isSome = true → keys.isSome = true) := by
  unfold keyDown
  split
  · cases hk : w.keysDown with
    | none => exact ⟨none, by cases w; simp_all, by simp⟩
    | some k => exact ⟨_, rfl, fun _ => rfl⟩
  · exact ⟨w.keysDown, rfl, id⟩

theorem keyUp_fields (keyCode : Nat) (w : World) :
    ∃ keys, (keyUp keyCode w).2 = { w with keysDown := keys } ∧
      (w.keysDown.isSome = true → keys.isSome = true) := by
  unfold keyUp
  split
  · cases hk : w.keysDown with
    | none => exact ⟨none, by cases w; simp_all, by simp⟩
    | some k => exact ⟨_, rfl, fun _ => rfl⟩
  · exact ⟨w.keysDown, rfl, id⟩

theorem deliver_fields (events : List KeyEvent) :
    ∀ w : World, ∃ keys, deliver w events = { w with keysDown := keys } ∧
      (w.keysDown.isSome = true → keys.isSome = true) := by
  induction events with
  | nil => intro w; exact ⟨w.keysDown, rfl, id⟩
  | cons e rest ih =>
    intro w
    cases e with
    | down keyCode =>
      obtain ⟨k1, h1, hk1⟩ := keyDown_fields keyCode w
      obtain ⟨k2, h2, hk2⟩ := ih (keyDown keyCode w).2
      refine ⟨k2, ?_, fun h => hk2 (by rw [h1]; exact hk1 h)⟩
      simp only [deliver, h2]
      rw [h1]
    | up keyCode =>
      obtain ⟨k1, h1, hk1⟩ := keyUp_fields keyCode w
      obtain ⟨k2, h2, hk2⟩ := ih (keyUp keyCode w).2
      refine ⟨k2, ?_, fun h => hk2 (by rw [h1]; exact hk1 h)⟩
      simp only [deliver, h2]
      rw [h1]

theorem deliver_ready (events : List KeyEvent) {w : World} (hr : Ready w) :
    Ready (deliver w events) ∧ (deliver w events).isShot1 = w.isShot1 ∧
      (deliver w events).shapesOf = w.shapesOf := by
  obtain ⟨keys, h, hk⟩ := deliver_fields events w
  rw [h]
  exact ⟨⟨hr.1, hk hr.2.1, hr.2.2.1, hr.2.2.2.1, hr.2.2.2.2⟩, rfl, rfl⟩

/-- Every sequence of frames on a ready world completes; the spawned spheres are
appended to the entity sequence, one for each qualifying tick met with the latch
clear. -/
theorem runFrames_ready (env : Env) (frames : List (List KeyEvent × Frame)) :
    ∀ {w : World}, Ready w →
      ∃ w', runFrames env frames w = (.ok (), w') ∧ Ready w' ∧
        w'.isShot1 = latchAfter w.isShot1 (ticksOf frames) ∧
        w'.shapesOf = w.shapesOf
          ++ List.replicate (spawnCount w.isShot1 (ticksOf frames)) [spawnedEntry] := by
  induction frames with
  | nil => intro w hr; exact ⟨w, rfl, hr, rfl, by simp [spawnCount, ticksOf]⟩
  | cons ef rest ih =>
    intro w hr
    obtain ⟨events, f⟩ := ef
    obtain ⟨hd, hdl, hds⟩ := deliver_ready events hr
    obtain ⟨w1, h1, hr1, hl1, hs1⟩ := animate_ready env f hd
    obtain ⟨w', h2, hr2, hl2, hs2⟩ := ih hr1
    refine ⟨w', ?_, hr2, ?_, ?_⟩
    · simp only [runFrames, h1, h2]
    · rw [hl2, hl1]
      rfl
    · rw [hs2, hs1, hds, hl1, hdl, List.append_assoc, ← List.replicate_add]
      congr 2
      by_cases hq : Qualifying f.timeDiff
      · simp [spawnCount, ticksOf, hq]
      · simp [spawnCount, ticksOf, hq]

theorem spawnCount_append (l1 l2 : List Int) :
    ∀ latch, spawnCount latch (l1 ++ l2)
      = spawnCount latch l1 + spawnCount (latchAfter latch l1) l2 := by
  induction l1 with
  | nil => intro latch; simp [spawnCount, latchAfter]
  | cons t ts ih =>
    intro latch
    by_cases hq : Qualifying t
    · simp [spawnCount, latchAfter, hq, ih, Nat.add_assoc]
    · simp [spawnCount, latchAfter, hq, ih]

theorem spawnCount_replicate_odd (t : Int) (ht : ¬ Qualifying t) (n : Nat) :
    ∀ latch, spawnCount latch (List.replicate n t) = 0 ∧
      latchAfter latch (List.replicate n t) = (if n = 0 then latch else false) := by
  induction n with
  | zero => intro latch; simp [spawnCount, latchAfter]
  | succ n ih =>
    intro latch
    obtain ⟨h1, h2⟩ := ih false
    simp only [List.replicate_succ, spawnCount, latchAfter, ht, if_false, h1, decide_False, h2,
      true_and]
    split <;> simp

theorem spawnCount_replicate_even (t : Int) (ht : Qualifying t) (n : Nat) :
    spawnCount true (List.replicate n t) = 0 ∧
      spawnCount false (List.replicate (n + 1) t) = 1 := by
  have h0 : ∀ m, spawnCount true (List.replicate m t) = 0 := by
    intro m
    induction m with
    | zero => rfl
    | succ m ih => simp [List.replicate_succ, spawnCount, ht, ih]
  exact ⟨h0 n, by simp [List.replicate_succ, spawnCount, ht, h0 n]⟩

/-- C4: starting with the spawn latch clear on a ready world, for every sequence of
frames whose ticks are `a` frames at tick 1, then `k >= 1` frames at tick 2, then `b`
frames at tick 3, every frame completes and exactly one entity, a spawned sphere, is
added to the entity sequence, whatever `k` is. -/
theorem spawn_once_across_tick_two (env : Env) (frames : List (List KeyEvent × Frame))
    (w : World) (a k b : Nat) (hr : Ready w) (hlatch : w.isShot1 = false) (hk : 1 ≤ k)
    (hticks : ticksOf frames
      = List.replicate a 1 ++ List.replicate k 2 ++ List.replicate b 3) :
    ∃ w', runFrames env frames w = (.ok (), w') ∧
      w'.scene.children.length = w.scene.children.length + 1 ∧
      w'.shapesOf = w.shapesOf ++ [[spawnedEntry]] := by
  obtain ⟨w', h1, _, _, hs⟩ := runFrames_ready env frames hr
  have hcount : spawnCount w.isShot1 (ticksOf frames) = 1 := by
    obtain ⟨k', rfl⟩ : ∃ k', k = k' + 1 := ⟨k - 1, by omega⟩
    have h1 := spawnCount_replicate_odd 1 (by decide) a false
    have h3 := spawnCount_replicate_odd 3 (by decide) b
    have h2 := spawnCount_replicate_even 2 (by decide) k'
    rw [hlatch, hticks, spawnCount_append, spawnCount_append, h1.1, h1.2, (h3 _).1]
    simp [h2.2]
  rw [hcount] at hs
  refine ⟨w', h1, ?_, by simpa using hs⟩
  have := congrArg List.length hs
  simpa [World.shapesOf] using this

/-- C4 on the example world with one frame at tick 1, two at tick 2, one at tick 3. -/
theorem spawn_once_across_tick_two_witness :
    ∃ w', runFrames envExample framesExample worldExample = (.ok (), w') ∧
      w'.scene.children.length = worldExample.scene.children.length + 1 ∧
      w'.shapesOf = worldExample.shapesOf ++ [[spawnedEntry]] :=
  spawn_once_across_tick_two envExample framesExample worldExample 1 2 1 (by decide) (by decide)
    (by decide) (by decide)

/-! ## Read-back after the step -/

theorem run_worldTransform (ops : List BodyOp) :
    ∀ body : Body, (body.run ops).worldTransform = body.worldTransform := by
  induction ops with
  | nil => intro body; rfl
  | cons op rest ih =>
    intro body
    have : (BodyOp.apply body op).worldTransform = body.worldTransform := by
      cases op <;> rfl
    simp only [Body.run, List.foldl_cons] at ih ⊢
    rw [ih, this]

theorem onBody_worldTransform (w : World) (h : Nat) (ops : List BodyOp) :
    (w.onBody h ops).dynamicsWorld.map (fun b => b.worldTransform)
      = w.dynamicsWorld.map (fun b => b.worldTransform) := by
  unfold World.onBody
  cases hb : w.dynamicsWorld[h]? with
  | none => rfl
  | some body =>
    simp only [List.map_set, run_worldTransform]
    apply List.ext_getElem?
    intro i
    by_cases hi : h = i
    · subst hi
      by_cases hlt : h < w.dynamicsWorld.length
      · rw [List.getElem?_set_self (by simpa using hlt), List.getElem?_map, hb]
        rfl
      · rw [List.getElem?_eq_none (by simpa using hlt), List.getElem?_eq_none (by simpa using hlt)]
    · rw [List.getElem?_set_ne hi]

theorem forall₂_right {α β : Type} {R : α → β → Prop} {l : List α} {l' : List β}
    (h : List.Forall₂ R l l') : ∀ y ∈ l', ∃ x ∈ l, R x y := by
  induction h with
  | nil => intro y hy; simp at hy
  | cons hab _ ih =>
    intro y hy
    rcases List.mem_cons.mp hy with rfl | hy
    · exact ⟨_, List.mem_cons_self _ _, hab⟩
    · obtain ⟨x, hx, hr⟩ := ih y hy
      exact ⟨x, List.mem_cons_of_mem _ hx, hr⟩

theorem bodyOf_congr {w w' : World} (hs : w'.scene.children = w.scene.children)
    (hl : w'.dynamicsWorld.length = w.dynamicsWorld.length) : w'.bodyOf = w.bodyOf := by
  funext ref
  simp only [World.bodyOf, hs, hl]

/-- The state at the end of a completed frame, in terms of the state `w2` after the
shot: the children are the read-back of the children of `w2` from the stepped bodies,
the bodies keep the stepped poses, and the calls are the step, the read-backs, and
the control statements on the body of the cow. -/
theorem animate_ok_fields {env : Env} {f : Frame} {w w' : World}
    (h : animate env f w = (.ok (), w')) :
    ∃ w1 w2 b ops, animate.winCondition w = (.ok (), w1) ∧
      animate.shoot env f w1 = (.ok (), w2) ∧
      List.Forall₂
        (ReadBack (env.stepSimulation ((f.now - w2.lastTime) / 1000) 10 w2.dynamicsWorld))
        w2.scene.children w'.scene.children ∧
      w'.dynamicsWorld.map (fun b => b.worldTransform)
        = (env.stepSimulation ((f.now - w2.lastTime) / 1000) 10 w2.dynamicsWorld).map
            (fun b => b.worldTransform) ∧
      w'.cow.bind w'.bodyOf = some b ∧
      controlRules w'.keysDown = (.ok (), ops) ∧
      w'.calls = w2.calls ++ [Call.stepSimulation ((f.now - w2.lastTime) / 1000) 10]
        ++ readBackCalls w2.scene.children ++ ops.map (Call.onBody b) := by
  obtain ⟨w1, w2, w3, h1, h2, h3, h4⟩ := animate_ok h
  obtain ⟨children, hrb, rfl⟩ := loop_ok h3
  obtain ⟨b, ops, hb, hops, rfl⟩ := control_ok h4
  obtain ⟨hc1, hc2, hc3, hc4, hc5, _, hc7⟩ := camera_fields
    { animate.step env f w2 with
      scene.children := children
      calls := (animate.step env f w2).calls
        ++ readBackCalls (animate.step env f w2).scene.children }
  refine ⟨w1, w2, b, ops, h1, h2, ?_, ?_, ?_, ?_, ?_⟩
  · show List.Forall₂ _ _ (animate.camera _).scene.children
    rw [hc1]
    exact hrb
  · rw [onBody_worldTransform, hc2]
    rfl
  · have : World.bodyOf (World.onBody (animate.camera
        { animate.step env f w2 with
          scene.children := children
          calls := (animate.step env f w2).calls
            ++ readBackCalls (animate.step env f w2).scene.children }) b ops)
        = World.bodyOf (animate.camera
        { animate.step env f w2 with
          scene.children := children
          calls := (animate.step env f w2).calls
            ++ readBackCalls (animate.step env f w2).scene.children }) :=
      bodyOf_congr rfl (onBody_length _ _ _)
    rw [this]
    exact hb
  · exact hops
  · show (animate.camera _).calls ++ ops.map (Call.onBody b) = _
    rw [hc3]
    rfl

/-- C8: after every frame that completes, every entity of the entity sequence, a
sphere spawned in that frame included, has the pose read back from its body after
the solver step: `pos` is the origin of that pose and `transform` is
translation * rotation * scale built from that pose and the entity's scale.  The
bodies still have those poses at the end of the frame. -/
theorem animate_read_back (env : Env) (f : Frame) (w w' : World)
    (h : animate env f w = (.ok (), w')) :
    ∃ w1 w2, animate.winCondition w = (.ok (), w1) ∧ animate.shoot env f w1 = (.ok (), w2) ∧
      w'.scene.children.length = w2.scene.children.length ∧
      w'.dynamicsWorld.map (fun b => b.worldTransform)
        = (env.stepSimulation ((f.now - w2.lastTime) / 1000) 10 w2.dynamicsWorld).map
            (fun b => b.worldTransform) ∧
      ∀ shape ∈ w'.scene.children, ∃ b body TR,
        shape.body = some b ∧
        (env.stepSimulation ((f.now - w2.lastTime) / 1000) 10 w2.dynamicsWorld)[b]? = some body ∧
        shape.ptransform = some body.worldTransform ∧
        shape.pos = body.worldTransform.origin ∧
        shape.transform = some TR ∧
        TR.toMatrix = translation body.worldTransform.origin
          * rotation body.worldTransform.rotation * scaling shape.scale := by
  obtain ⟨w1, w2, _, _, h1, h2, hrb, hpose, _⟩ := animate_ok_fields h
  refine ⟨w1, w2, h1, h2, hrb.length_eq.symm, hpose, ?_⟩
  intro shape hs
  obtain ⟨shape0, _, b, body, TR, hb, hbody, rfl, hmat⟩ := forall₂_right hrb shape hs
  exact ⟨b, body, TR, hb, hbody, rfl, rfl, rfl, hmat⟩

/-- C8 on the example world at tick 2, a frame that spawns a sphere: the frame
completes with three entities, and the spawned sphere, moved by the step of that
frame from (0, 6, -10), has `pos` (2, 4, -6). -/
theorem animate_read_back_witness :
    (∃ w1 w2, animate.winCondition worldExample = (.ok (), w1) ∧
      animate.shoot envExample (frameExample 2 1000) w1 = (.ok (), w2) ∧
      (animate envExample (frameExample 2 1000) worldExample).2.scene.children.length
        = w2.scene.children.length ∧
      (animate envExample (frameExample 2 1000) worldExample).2.dynamicsWorld.map
          (fun b => b.worldTransform)
        = (envExample.stepSimulation (((frameExample 2 1000).now - w2.lastTime) / 1000) 10
            w2.dynamicsWorld).map (fun b => b.worldTransform) ∧
      ∀ shape ∈ (animate envExample (frameExample 2 1000) worldExample).2.scene.children,
        ∃ b body TR,
          shape.body = some b ∧
          (envExample.stepSimulation (((frameExample 2 1000).now - w2.lastTime) / 1000) 10
            w2.dynamicsWorld)[b]? = some body ∧
          shape.ptransform = some body.worldTransform ∧
          shape.pos = body.worldTransform.origin ∧
          shape.transform = some TR ∧
          TR.toMatrix = translation body.worldTransform.origin
            * rotation body.worldTransform.rotation * scaling shape.scale) ∧
      (animate envExample (frameExample 2 1000) worldExample).2.scene.children.map
          (fun s => s.pos) = [⟨0, 0, 0⟩, ⟨0, 6, -10⟩, ⟨2, 4, -6⟩] :=
  ⟨animate_read_back envExample (frameExample 2 1000) worldExample _
      (Prod.ext (by decide) rfl),
    by decide!⟩

/-! ## The order of the calls in a frame -/

theorem shoot_ok_calls {env : Env} {f : Frame} {w w2 : World}
    (h : animate.shoot env f w = (.ok (), w2)) :
    (¬ (Qualifying f.timeDiff ∧ w.isShot1 = false) ∧ w2.calls = w.calls ∧
        w2.dynamicsWorld = w.dynamicsWorld) ∨
      (Qualifying f.timeDiff ∧ w.isShot1 = false ∧
        w2.calls = w.calls ++ [Call.addRigidBody w.dynamicsWorld.length,
          Call.onBody w.dynamicsWorld.length (.setLinearVelocity (ranOf f))]) := by
  by_cases hq : Qualifying f.timeDiff
  · cases hl : w.isShot1 with
    | true =>
      rw [shoot_latched env f w hq hl] at h
      simp only [Prod.mk.injEq, true_and] at h
      subst h
      exact Or.inl ⟨by simp [hl], rfl, rfl⟩
    | false =>
      cases hc : w.glcanvas with
      | none =>
        rw [shoot_no_canvas env f w hq hl hc] at h
        simp at h
      | some c =>
        obtain ⟨sphere, body, hshoot, _⟩ := shoot_spawn env f w c hq hl hc
        rw [hshoot] at h
        simp only [Prod.mk.injEq, true_and] at h
        subst h
        exact Or.inr ⟨hq, rfl, rfl⟩
  · rw [shoot_idle env f w hq] at h
    simp only [Prod.mk.injEq, true_and] at h
    subst h
    exact Or.inl ⟨fun hh => hq hh.1, rfl, rfl⟩

/-- C10 as stated fails: on the example world the frame at tick 2 completes and adds
the body of the spawned sphere before it calls the solver step. -/
theorem spawn_before_step :
    ¬ ∀ (env : Env) (f : Frame) (w w' : World), animate env f w = (.ok (), w') →
        SpawnAfterStep (w'.calls.drop w.calls.length) := by
  intro h
  have h1 := h envExample (frameExample 2 1000) worldExample
    (animate envExample (frameExample 2 1000) worldExample).2 (Prod.ext (by decide) rfl)
  revert h1
  with_unfolding_all decide

/-- C10 amended: in every frame that completes, the calls on the physics engine are,
in this order: the calls of the spawn trigger (none, or when the tick qualifies with
the latch clear the addition of the new body and the setting of its velocity), then
the solver step, then one read-back per entity in sequence order, then the statements
of the control rules on the body of the cow. -/
theorem animate_call_order (env : Env) (f : Frame) (w w' : World)
    (h : animate env f w = (.ok (), w')) :
    ∃ w1 w2 b ops, animate.winCondition w = (.ok (), w1) ∧
      animate.shoot env f w1 = (.ok (), w2) ∧
      ((¬ (Qualifying f.timeDiff ∧ w.isShot1 = false) ∧ w2.calls = w.calls) ∨
        (Qualifying f.timeDiff ∧ w.isShot1 = false ∧
          w2.calls = w.calls ++ [Call.addRigidBody w.dynamicsWorld.length,
            Call.onBody w.dynamicsWorld.length (.setLinearVelocity (ranOf f))])) ∧
      w'.cow.bind w'.bodyOf = some b ∧
      controlRules w'.keysDown = (.ok (), ops) ∧
      w'.calls = w2.calls ++ [Call.stepSimulation ((f.now - w2.lastTime) / 1000) 10]
        ++ readBackCalls w2.scene.children ++ ops.map (Call.onBody b) := by
  obtain ⟨w1, w2, b, ops, h1, h2, _, _, hb, hops, hcalls⟩ := animate_ok_fields h
  obtain ⟨wc, rfl⟩ := winCondition_ok h1
  refine ⟨_, w2, b, ops, h1, h2, ?_, hb, hops, hcalls⟩
  rcases shoot_ok_calls h2 with ⟨hn, hc, _⟩ | ⟨hq, hl, hc⟩
  · exact Or.inl ⟨hn, hc⟩
  · exact Or.inr ⟨hq, hl, hc⟩

/-- C10 amended, on the example world at tick 2: the eight calls of the frame. -/
theorem animate_call_order_witness :
    (∃ w1 w2 b ops, animate.winCondition worldExample = (.ok (), w1) ∧
      animate.shoot envExample (frameExample 2 1000) w1 = (.ok (), w2) ∧
      ((¬ (Qualifying (frameExample 2 1000).timeDiff ∧ worldExample.isShot1 = false) ∧
          w2.calls = worldExample.calls) ∨
        (Qualifying (frameExample 2 1000).timeDiff ∧ worldExample.isShot1 = false ∧
          w2.calls = worldExample.calls ++ [Call.addRigidBody worldExample.dynamicsWorld.length,
            Call.onBody worldExample.dynamicsWorld.length
              (.setLinearVelocity (ranOf (frameExample 2 1000)))])) ∧
      (animate envExample (frameExample 2 1000) worldExample).2.cow.bind
        (animate envExample (frameExample 2 1000) worldExample).2.bodyOf = some b ∧
      controlRules (animate envExample (frameExample 2 1000) worldExample).2.keysDown
        = (.ok (), ops) ∧
      (animate envExample (frameExample 2 1000) worldExample).2.calls
        = w2.calls ++ [Call.stepSimulation (((frameExample 2 1000).now - w2.lastTime) / 1000) 10]
          ++ readBackCalls w2.scene.children ++ ops.map (Call.onBody b)) ∧
      (animate envExample (frameExample 2 1000) worldExample).2.calls.drop
          worldExample.calls.length
        = [Call.addRigidBody 2, Call.onBody 2 (.setLinearVelocity ⟨2, -2, 4⟩),
           Call.stepSimulation 1 10, Call.getWorldTransform 0, Call.getWorldTransform 1,
           Call.getWorldTransform 2, Call.onBody 0 (.setAngularVelocity ⟨0, 0, 0⟩),
           Call.onBody 0 (.setLinearVelocity ⟨0, 0, 0⟩)] :=
  ⟨animate_call_order envExample (frameExample 2 1000) worldExample _
      (Prod.ext (by decide) rfl),
    by with_unfolding_all decide⟩

/-! ## Spawns and distinct ticks -/

theorem chain_le {t : Int} {rest : List Int}
    (h : List.Chain (fun a b => a ≤ b ∧ b ≤ a + 1) t rest) : ∀ x ∈ rest, t ≤ x := by
  induction rest generalizing t with
  | nil => intro x hx; simp at hx
  | cons u rest ih =>
    intro x hx
    rw [List.chain_cons] at h
    rcases List.mem_cons.mp hx with rfl | hx
    · exact h.1.1
    · exact le_trans h.1.1 (ih h.2 x hx)

theorem not_mem_qualifying {t : Int} {rest : List Int} (h : ∀ x ∈ rest, t < x) :
    t ∉ (rest.filter fun x => decide (Qualifying x)).toFinset := by
  intro hm
  rw [List.mem_toFinset, List.mem_filter] at hm
  exact absurd (h t hm.1) (lt_irrefl _)

theorem not_mem_of_not_qualifying {t : Int} (rest : List Int) (h : ¬ Qualifying t) :
    t ∉ (rest.filter fun x => decide (Qualifying x)).toFinset := by
  intro hm
  rw [List.mem_toFinset, List.mem_filter] at hm
  exact h (by simpa using hm.2)

theorem card_insert_eq_erase_add_one {u : Int} (S : Finset Int) :
    (insert u S).card = 1 + (S.erase u).card := by
  by_cases hm : u ∈ S
  · rw [Finset.insert_eq_of_mem hm, ← Finset.card_erase_add_one hm, Nat.add_comm]
  · rw [Finset.card_insert_of_not_mem hm, Finset.erase_eq_of_not_mem hm, Nat.add_comm]

theorem spawnCount_chain (rest : List Int) :
    ∀ t, List.Chain (fun a b => a ≤ b ∧ b ≤ a + 1) t rest →
      spawnCount (decide (Qualifying t)) rest
        = ((rest.filter fun x => decide (Qualifying x)).toFinset.erase t).card := by
  induction rest with
  | nil => intro t _; simp [spawnCount]
  | cons u rest ih =>
    intro t h
    rw [List.chain_cons] at h
    obtain ⟨⟨htu, hut⟩, hrest⟩ := h
    have ihu := ih u hrest
    by_cases hu : Qualifying u
    · simp only [hu, decide_True] at ihu
      by_cases ht : Qualifying t
      · have : u = t := by
          unfold Qualifying at hu ht
          omega
        subst this
        simp [spawnCount, hu, List.filter_cons, ihu]
      · have hnot : t ∉ insert u (rest.filter fun x => decide (Qualifying x)).toFinset := by
          rw [Finset.mem_insert]
          rintro (rfl | hm)
          · exact ht hu
          · exact not_mem_of_not_qualifying rest ht hm
        simp only [spawnCount, hu, ht, if_true, decide_False, Bool.false_eq_true, if_false,
          List.filter_cons, decide_True, List.toFinset_cons, Finset.erase_eq_of_not_mem hnot, ihu]
        rw [card_insert_eq_erase_add_one]
    · simp only [hu, decide_False] at ihu
      have hS : t ∉ (rest.filter fun x => decide (Qualifying x)).toFinset := by
        by_cases ht : Qualifying t
        · have hne : u = t + 1 := by
            rcases eq_or_ne u t with rfl | hne
            · exact absurd ht hu
            · omega
          apply not_mem_qualifying
          intro x hx
          have := chain_le hrest x hx
          omega
        · exact not_mem_of_not_qualifying rest ht
      simp only [spawnCount, hu, if_false, List.filter_cons, decide_False, Bool.false_eq_true,
        Finset.erase_eq_of_not_mem hS, ihu,
        Finset.erase_eq_of_not_mem (not_mem_of_not_qualifying rest hu)]

theorem spawnCount_eq_distinct (ticks : List Int)
    (h : List.Chain' (fun a b => a ≤ b ∧ b ≤ a + 1) ticks) :
    spawnCount false ticks = distinctQualifying ticks := by
  cases ticks with
  | nil => simp [spawnCount, distinctQualifying]
  | cons t rest =>
    have hc := spawnCount_chain rest t h
    by_cases ht : Qualifying t
    · simp only [ht, decide_True] at hc
      simp only [spawnCount, distinctQualifying, ht, if_true, Bool.false_eq_true, if_false,
        List.filter_cons, decide_True, List.toFinset_cons, hc]
      rw [card_insert_eq_erase_add_one]
    · simp only [ht, decide_False] at hc
      simp only [spawnCount, distinctQualifying, ht, if_false, List.filter_cons, decide_False,
        Bool.false_eq_true, hc, Finset.erase_eq_of_not_mem (not_mem_of_not_qualifying rest ht)]

/-- C9 as stated fails: on the example world two frames at ticks 2 and 4 complete and
spawn one sphere, though two distinct even non-zero ticks occur. -/
theorem spawn_count_ne_distinct_ticks :
    ¬ ∀ (env : Env) (frames : List (List KeyEvent × Frame)) (w : World),
        Ready w → w.isShot1 = false → List.Chain' (fun a b => a ≤ b) (ticksOf frames) →
        ∃ w', runFrames env frames w = (.ok (), w') ∧
          w'.scene.children.length
            = w.scene.children.length + distinctQualifying (ticksOf frames) := by
  intro h
  obtain ⟨w', h1, h2⟩ := h envExample [([], frameExample 2 1000), ([], frameExample 4 2000)]
    worldExample (by decide) (by decide) (by simp [ticksOf, frameExample])
  have h3 : w' = (runFrames envExample [([], frameExample 2 1000), ([], frameExample 4 2000)]
      worldExample).2 := by rw [h1]
  subst h3
  revert h2
  decide

/-- C9 amended: for every sequence of frames on a ready world with the latch clear
whose integer ticks never decrease and never skip a value, every frame completes and
the number of spheres spawned is the number of distinct even non-zero tick values
that occur. -/
theorem spawn_count_eq_distinct_ticks (env : Env) (frames : List (List KeyEvent × Frame))
    (w : World) (hr : Ready w) (hlatch : w.isShot1 = false)
    (hticks : List.Chain' (fun a b => a ≤ b ∧ b ≤ a + 1) (ticksOf frames)) :
    ∃ w', runFrames env frames w = (.ok (), w') ∧
      w'.scene.children.length
        = w.scene.children.length + distinctQualifying (ticksOf frames) ∧
      w'.shapesOf = w.shapesOf
        ++ List.replicate (distinctQualifying (ticksOf frames)) [spawnedEntry] := by
  obtain ⟨w', h1, _, _, hs⟩ := runFrames_ready env frames hr
  rw [hlatch, spawnCount_eq_distinct _ hticks] at hs
  refine ⟨w', h1, ?_, hs⟩
  have := congrArg List.length hs
  simpa [World.shapesOf] using this

/-- C9 amended, on the example world with ticks 1, 2, 2, 3, 4, 4, 5: two spheres. -/
theorem spawn_count_eq_distinct_ticks_witness :
    ∃ w', runFrames envExample
        [([], frameExample 1 1000), ([], frameExample 2 2000), ([], frameExample 2 2500),
         ([], frameExample 3 3000), ([], frameExample 4 4000), ([], frameExample 4 4500),
         ([], frameExample 5 5000)] worldExample = (.ok (), w') ∧
      w'.scene.children.length = worldExample.scene.children.length + 2 ∧
      w'.shapesOf = worldExample.shapesOf ++ List.replicate 2 [spawnedEntry] :=
  spawn_count_eq_distinct_ticks envExample _ worldExample (by decide) (by decide)
    (by simp [ticksOf, frameExample])


/-! ## The sphere factory -/

/-- What `addSphere` does on any call whose material, when the sphere is a light,
names an entry of `scene.materials`: one node is appended, it is added to the lights
exactly when `isLight` is true, one body is added, one call is made. -/
theorem addSphere_ok (env : Env) (pos : Vec3) (radius : ℚ) (velocity : Vec3)
    (mass restitution : ℚ) (material : Option String) (isLight isHidden : Option Bool)
    (w : World)
    (hmat : isLight = some true →
      ∃ m, w.scene.materials.lookup (materialOf material) = some m) :
    ∃ sphere body,
      addSphere env pos radius velocity mass restitution material isLight isHidden w
        = (.ok w.scene.children.length,
            { w with
              scene :=
                { w.scene with
                  children := w.scene.children ++ [sphere]
                  lights :=
                    if isLight = some true then w.scene.lights ++ [w.scene.children.length]
                    else w.scene.lights }
              dynamicsWorld := w.dynamicsWorld ++ [body]
              calls := w.calls ++ [Call.addRigidBody w.dynamicsWorld.length] }) ∧
      sphere.scale = ⟨radius, radius, radius⟩ ∧ sphere.pos = pos ∧
      sphere.radius = some radius ∧ sphere.velocity = velocity ∧ sphere.mass = mass ∧
      sphere.shapes = [⟨.sphere, none, materialOf material, isHidden.getD false⟩] ∧
      sphere.ptransform = some ⟨pos, ⟨0, 0, 0, 1⟩⟩ ∧
      sphere.body = some w.dynamicsWorld.length ∧
      (isLight = some true → sphere.atten = some ⟨1, 0, 0⟩ ∧
        ∃ m, w.scene.materials.lookup (materialOf material) = some m ∧ sphere.color = m.kd) ∧
      (isLight ≠ some true → sphere.atten = none ∧ sphere.color = none) ∧
      body.linearVelocity = ⟨0, 0, 0⟩ ∧ body.angularVelocity = ⟨0, 0, 0⟩ ∧
      body.mass = mass ∧ body.restitution = restitution ∧
      body.collisionShape = .btSphereShape radius ∧
      body.worldTransform = ⟨pos, ⟨0, 0, 0, 1⟩⟩ := by
  have hT : ∀ (color atten : Option Vec3),
      updateTransformation
        { scale := ⟨radius, radius, radius⟩, pos := pos, radius := some radius,
          velocity := velocity, mass := mass,
          shapes := [{ type := .sphere, filename := none, material := materialOf material,
                       hidden := isHidden.getD false }],
          color := color, atten := atten, ptransform := some ⟨pos, ⟨0, 0, 0, 1⟩⟩,
          transform := none, body := none }
        = (.ok (),
            { scale := ⟨radius, radius, radius⟩, pos := pos, radius := some radius,
              velocity := velocity, mass := mass,
              shapes := [{ type := .sphere, filename := none, material := materialOf material,
                           hidden := isHidden.getD false }],
              color := color, atten := atten, ptransform := some ⟨pos, ⟨0, 0, 0, 1⟩⟩,
              transform := some (transformOf ⟨pos, ⟨0, 0, 0, 1⟩⟩ ⟨radius, radius, radius⟩),
              body := none }) :=
    fun color atten => updateTransformation_some _ ⟨pos, ⟨0, 0, 0, 1⟩⟩ rfl
  by_cases hl : isLight = some true
  · obtain ⟨m, hm⟩ := hmat hl
    subst hl
    refine ⟨
      { scale := ⟨radius, radius, radius⟩, pos := pos, radius := some radius,
        velocity := velocity, mass := mass,
        shapes := [{ type := .sphere, filename := none, material := materialOf material,
                     hidden := isHidden.getD false }],
        color := m.kd, atten := some ⟨1, 0, 0⟩, ptransform := some ⟨pos, ⟨0, 0, 0, 1⟩⟩,
        transform := some (transformOf ⟨pos, ⟨0, 0, 0, 1⟩⟩ ⟨radius, radius, radius⟩),
        body := some w.dynamicsWorld.length },
      { mass := mass, worldTransform := ⟨pos, ⟨0, 0, 0, 1⟩⟩,
        collisionShape := .btSphereShape radius,
        localInertia := env.calculateLocalInertia (.btSphereShape radius) mass velocity,
        restitution := restitution, linearVelocity := ⟨0, 0, 0⟩,
        angularVelocity := ⟨0, 0, 0⟩ },
      ?_, rfl, rfl, rfl, rfl, rfl, rfl, rfl, rfl, fun _ => ⟨rfl, m, hm, rfl⟩,
      fun h => absurd rfl h, rfl, rfl, rfl, rfl, rfl, rfl⟩
    unfold materialOf at hm hT
    simp only [addSphere, Option.getD_some, if_true, hm, hT, set_concat_length, materialOf]
  · have hl' : isLight.getD false = false := by
      rcases isLight with _ | _ | _
      · rfl
      · rfl
      · exact absurd rfl hl
    refine ⟨
      { scale := ⟨radius, radius, radius⟩, pos := pos, radius := some radius,
        velocity := velocity, mass := mass,
        shapes := [{ type := .sphere, filename := none, material := materialOf material,
                     hidden := isHidden.getD false }],
        color := none, atten := none, ptransform := some ⟨pos, ⟨0, 0, 0, 1⟩⟩,
        transform := some (transformOf ⟨pos, ⟨0, 0, 0, 1⟩⟩ ⟨radius, radius, radius⟩),
        body := some w.dynamicsWorld.length },
      { mass := mass, worldTransform := ⟨pos, ⟨0, 0, 0, 1⟩⟩,
        collisionShape := .btSphereShape radius,
        localInertia := env.calculateLocalInertia (.btSphereShape radius) mass velocity,
        restitution := restitution, linearVelocity := ⟨0, 0, 0⟩,
        angularVelocity := ⟨0, 0, 0⟩ },
      ?_, rfl, rfl, rfl, rfl, rfl, rfl, rfl, rfl, fun h => absurd h hl,
      fun _ => ⟨rfl, rfl⟩, rfl, rfl, rfl, rfl, rfl, rfl⟩
    unfold materialOf at hT
    simp only [addSphere, hl', Bool.false_eq_true, if_false, hT, set_concat_length, hl,
      materialOf]

/-- C12 as stated fails: on the example world the call with `isLight` true and the
material omitted, hence `"default"`, which `scene.materials` does not have, throws
and returns no sphere. -/
theorem addSphere_light_unknown_material :
    ¬ ∀ (env : Env) (pos : Vec3) (radius : ℚ) (velocity : Vec3) (mass restitution : ℚ)
        (material : Option String) (isLight isHidden : Option Bool) (w : World),
        ∃ sphere w',
          addSphere env pos radius velocity mass restitution material isLight isHidden w
            = (.ok w.scene.children.length, w') ∧
          w'.scene.children = w.scene.children ++ [sphere] ∧
          sphere.scale = ⟨radius, radius, radius⟩ ∧
          (isLight = some true →
            w'.scene.lights = w.scene.lights ++ [w.scene.children.length] ∧
            sphere.atten = some ⟨1, 0, 0⟩ ∧
            ∃ m, w.scene.materials.lookup (materialOf material) = some m ∧
              sphere.color = m.kd) ∧
          (isLight ≠ some true → w'.scene.lights = w.scene.lights) := by
  intro h
  obtain ⟨sphere, w', h1, _⟩ :=
    h envExample ⟨0, 0, 0⟩ 1 ⟨0, 0, 0⟩ 1 (1 / 2) none (some true) none worldExample
  have h2 : (addSphere envExample ⟨0, 0, 0⟩ 1 ⟨0, 0, 0⟩ 1 (1 / 2) none (some true) none
      worldExample).1 = .error (.typeError "this.scene.materials[material] is undefined") := by
    decide
  rw [h1] at h2
  simp at h2

/-- C12 amended: for every call of `addSphere` whose material, when `isLight` is true,
names an entry of `scene.materials`, the call returns the new sphere, the entity
sequence is the old one with that sphere appended last, its scale is
[radius, radius, radius]; if `isLight` is true the same sphere is appended to the
lights with color the `kd` of the named material and attenuation [1, 0, 0], and if
`isLight` is false or omitted the lights are unchanged. -/
theorem addSphere_appends (env : Env) (pos : Vec3) (radius : ℚ) (velocity : Vec3)
    (mass restitution : ℚ) (material : Option String) (isLight isHidden : Option Bool)
    (w : World)
    (hmat : isLight = some true →
      ∃ m, w.scene.materials.lookup (materialOf material) = some m) :
    ∃ sphere w',
      addSphere env pos radius velocity mass restitution material isLight isHidden w
        = (.ok w.scene.children.length, w') ∧
      w'.scene.children = w.scene.children ++ [sphere] ∧
      w'.scene.children.length = w.scene.children.length + 1 ∧
      w'.scene.children[w.scene.children.length]? = some sphere ∧
      sphere.scale = ⟨radius, radius, radius⟩ ∧
      (isLight = some true →
        w'.scene.lights = w.scene.lights ++ [w.scene.children.length] ∧
        sphere.atten = some ⟨1, 0, 0⟩ ∧
        ∃ m, w.scene.materials.lookup (materialOf material) = some m ∧
          sphere.color = m.kd) ∧
      (isLight ≠ some true → w'.scene.lights = w.scene.lights) := by
  obtain ⟨sphere, body, hadd, hscale, _, _, _, _, _, _, _, hlight, _⟩ :=
    addSphere_ok env pos radius velocity mass restitution material isLight isHidden w hmat
  refine ⟨sphere, _, hadd, rfl, by simp, List.getElem?_concat_length _ _, hscale, ?_, ?_⟩
  · intro hl
    exact ⟨by simp [hl], (hlight hl).1, (hlight hl).2⟩
  · intro hl
    simp [hl]

/-- C12 amended, on the example world: a light sphere of material `"white"` becomes
the third entity and the second light, with color (1, 1, 1). -/
theorem addSphere_appends_witness :
    ∃ sphere w',
      addSphere envExample ⟨1, 2, 3⟩ (1 / 4) ⟨0, 0, 0⟩ 1 (1 / 2) (some "white") (some true)
          none worldExample = (.ok 2, w') ∧
      w'.scene.children = worldExample.scene.children ++ [sphere] ∧
      sphere.scale = ⟨1 / 4, 1 / 4, 1 / 4⟩ ∧
      w'.scene.lights = [1, 2] ∧
      sphere.atten = some ⟨1, 0, 0⟩ ∧
      sphere.color = some ⟨1, 1, 1⟩ := by
  obtain ⟨sphere, w', h1, h2, _, _, h3, h4, _⟩ :=
    addSphere_appends envExample ⟨1, 2, 3⟩ (1 / 4) ⟨0, 0, 0⟩ 1 (1 / 2) (some "white")
      (some true) none worldExample (fun _ => ⟨⟨⟨1, 1, 1⟩, some ⟨1, 1, 1⟩⟩, by decide⟩)
  obtain ⟨h5, h6, m, hm, h7⟩ := h4 rfl
  have hm' : m = ⟨⟨1, 1, 1⟩, some ⟨1, 1, 1⟩⟩ := by
    have : worldExample.scene.materials.lookup (materialOf (some "white"))
        = some ⟨⟨1, 1, 1⟩, some ⟨1, 1, 1⟩⟩ := by decide
    rw [this] at hm
    exact (Option.some.inj hm).symm
  subst hm'
  exact ⟨sphere, w', h1, h2, h3, h5, h6, h7⟩

/-! ## The spawned sphere -/

theorem ranOf_eq (f : Frame) :
    ranOf f = ⟨-4 * (signOf f.random1 * f.random3), -4 * (signOf f.random2 * f.random4), 4⟩ := by
  simp only [ranOf, vec3.scale, signOf, Vec3.mk.injEq]
  refine ⟨by ring, by ring, by norm_num⟩

theorem signOf_cases (r : ℚ) : signOf r = -1 ∨ signOf r = 1 := by
  unfold signOf
  split
  · exact Or.inl rfl
  · exact Or.inr rfl

theorem launch_component_bounds (s r : ℚ) (hs : s = -1 ∨ s = 1) (h0 : 0 ≤ r) (h1 : r < 1) :
    -4 < -4 * (s * r) ∧ -4 * (s * r) < 4 := by
  rcases hs with rfl | rfl
  · constructor <;> linarith
  · constructor <;> linarith

/-- The shot with every parameter of the node and of the body it creates. -/
theorem shoot_spawn_node (env : Env) (f : Frame) (w : World) (c : GLCanvas)
    (hq : Qualifying f.timeDiff) (hl : w.isShot1 = false) (hc : w.glcanvas = some c) :
    ∃ sphere body,
      animate.shoot env f w
        = (.ok (),
            { w with
              scene.children := w.scene.children ++ [sphere]
              dynamicsWorld := w.dynamicsWorld ++ [body]
              calls := w.calls ++ [Call.addRigidBody w.dynamicsWorld.length,
                Call.onBody w.dynamicsWorld.length (.setLinearVelocity (ranOf f))]
              glcanvas := some { c with parsed := c.parsed ++ [w.scene.children.length] }
              isShot1 := true }) ∧
      sphere.scale = ⟨6 / 10, 6 / 10, 6 / 10⟩ ∧ sphere.pos = ⟨0, 6, -10⟩ ∧
      sphere.radius = some (6 / 10) ∧ sphere.mass = 1 / 10 ∧
      sphere.shapes = [⟨.sphere, none, "blueambient", false⟩] ∧
      sphere.body = some w.dynamicsWorld.length ∧
      body.linearVelocity = (ranOf f).fround ∧ body.mass = 1 / 10 ∧
      body.restitution = 1 / 10 ∧
      body.collisionShape = .btSphereShape (6 / 10) := by
  obtain ⟨scene, glcanvas, dynamicsWorld, time, lastTime, winCon, keysDown, cow, groudon, isShot1,
    isShot2, calls⟩ := w
  simp only at hc hl
  subst hc hl
  obtain ⟨sphere, body, hadd, hsc, hpos, hrad, _, hmass, hss, _, hsb, _, _, _, _, hbm, hbr, hbc,
      _⟩ :=
    addSphere_ok env ⟨0, 6, -10⟩ (6 / 10) ⟨0, 0, 0⟩ (1 / 10) (1 / 10) (some "blueambient") none
      none
      ⟨scene, some c, dynamicsWorld, time, lastTime, winCon, keysDown, cow, groudon, false,
        isShot2, calls⟩ (fun h => by cases h)
  refine ⟨sphere, body.run [.setLinearVelocity (ranOf f)], ?_, hsc, hpos, hrad, hmass, hss, hsb,
    rfl, hbm, hbr, hbc⟩
  have hno : ((none : Option Bool) = some true) = False := by simp
  simp only [hno, if_false] at hadd
  have hbody : World.bodyOf
      ⟨{ scene with children := scene.children ++ [sphere] }, some c, dynamicsWorld ++ [body],
        time, lastTime, winCon, keysDown, cow, groudon, false, isShot2,
        calls ++ [Call.addRigidBody dynamicsWorld.length]⟩
      scene.children.length = some dynamicsWorld.length :=
    bodyOf_eq_some.mpr ⟨sphere, List.getElem?_concat_length _ _, hsb, by simp⟩
  unfold animate.shoot
  rw [if_pos ((qualifying_iff _).mpr hq)]
  simp only [Bool.not_false, if_true, getCameraVectors, hadd, hbody, World.onBody,
    List.getElem?_concat_length, set_concat_length, ranOf, List.map_cons, List.map_nil,
    List.append_assoc, List.singleton_append]

/-- C11 as stated fails: on the example world, in the spawning frame whose first
magnitude draw is `1 - 2 ^ (-26)`, inside [0, 1), with sign -1, the vector computed
is `(4 - 2 ^ (-24), -2, 4)` and the body stores its X component as the 32-bit float
4, not strictly below 4. -/
theorem spawned_velocity_reaches_four :
    ¬ ∀ (env : Env) (f : Frame) (w : World) (c : GLCanvas),
        Qualifying f.timeDiff → w.isShot1 = false → w.glcanvas = some c →
        (0 ≤ f.random3 ∧ f.random3 < 1) → (0 ≤ f.random4 ∧ f.random4 < 1) →
        ∃ w2 body, animate.shoot env f w = (.ok (), w2) ∧
          w2.dynamicsWorld = w.dynamicsWorld ++ [body] ∧
          body.linearVelocity.z = 4 ∧
          -4 < body.linearVelocity.x ∧ body.linearVelocity.x < 4 ∧
          -4 < body.linearVelocity.y ∧ body.linearVelocity.y < 4 := by
  intro h
  obtain ⟨w2, body, h1, h2, _, _, hx, _⟩ :=
    h envExample frameNearOne worldExample
      { camera := ⟨⟨0, 3 / 2, 5⟩, ⟨1, 0, 0⟩, ⟨0, 1, 0⟩⟩, parsed := [], active := false }
      (by decide) (by decide) rfl (by norm_num [frameNearOne]) (by norm_num [frameNearOne])
  have hd : ((animate.shoot envExample frameNearOne worldExample).2.dynamicsWorld.getLast?).map
      (fun b => b.linearVelocity.x) = some 4 := by decide!
  rw [h1] at hd
  simp [h2] at hd
  rw [hd] at hx
  exact lt_irrefl _ hx

/-- C11 amended: in every spawning frame (tick qualifying, latch clear, canvas set),
whatever the two sign draws and for every two magnitude draws in [0, 1), the spawned
sphere is created with radius 0.6, mass 0.1, restitution 0.1 and material
"blueambient"; the vector computed is -4 * (s1 * r1, s2 * r2, -1) with s1, s2 in
{-1, +1}, whose X and Y lie strictly between -4 and 4, and the linear velocity of the
body is set to that vector narrowed to 32-bit floats: Z is exactly 4, X and Y lie
between -4 and 4 inclusive. -/
theorem spawned_sphere_launch (env : Env) (f : Frame) (w : World) (c : GLCanvas)
    (hq : Qualifying f.timeDiff) (hl : w.isShot1 = false) (hc : w.glcanvas = some c)
    (h3 : 0 ≤ f.random3 ∧ f.random3 < 1) (h4 : 0 ≤ f.random4 ∧ f.random4 < 1) :
    ∃ sphere body,
      animate.shoot env f w
        = (.ok (),
            { w with
              scene.children := w.scene.children ++ [sphere]
              dynamicsWorld := w.dynamicsWorld ++ [body]
              calls := w.calls ++ [Call.addRigidBody w.dynamicsWorld.length,
                Call.onBody w.dynamicsWorld.length (.setLinearVelocity (ranOf f))]
              glcanvas := some { c with parsed := c.parsed ++ [w.scene.children.length] }
              isShot1 := true }) ∧
      sphere.body = some w.dynamicsWorld.length ∧
      sphere.radius = some (6 / 10) ∧ sphere.scale = ⟨6 / 10, 6 / 10, 6 / 10⟩ ∧
      body.collisionShape = .btSphereShape (6 / 10) ∧
      sphere.mass = 1 / 10 ∧ body.mass = 1 / 10 ∧ body.restitution = 1 / 10 ∧
      sphere.shapes = [⟨.sphere, none, "blueambient", false⟩] ∧
      (signOf f.random1 = -1 ∨ signOf f.random1 = 1) ∧
      (signOf f.random2 = -1 ∨ signOf f.random2 = 1) ∧
      ranOf f
        = ⟨-4 * (signOf f.random1 * f.random3), -4 * (signOf f.random2 * f.random4), 4⟩ ∧
      (-4 < (ranOf f).x ∧ (ranOf f).x < 4 ∧ -4 < (ranOf f).y ∧ (ranOf f).y < 4) ∧
      body.linearVelocity = (ranOf f).fround ∧
      body.linearVelocity.z = 4 ∧
      -4 ≤ body.linearVelocity.x ∧ body.linearVelocity.x ≤ 4 ∧
      -4 ≤ body.linearVelocity.y ∧ body.linearVelocity.y ≤ 4 := by
  obtain ⟨sphere, body, hshoot, hsc, _, hrad, hmass, hss, hsb, hv, hbm, hbr, hbc⟩ :=
    shoot_spawn_node env f w c hq hl hc
  have hx := launch_component_bounds _ _ (signOf_cases f.random1) h3.1 h3.2
  have hy := launch_component_bounds _ _ (signOf_cases f.random2) h4.1 h4.2
  have hran := ranOf_eq f
  have hrx : (ranOf f).x = -4 * (signOf f.random1 * f.random3) := congrArg Vec3.x hran
  have hry : (ranOf f).y = -4 * (signOf f.random2 * f.random4) := congrArg Vec3.y hran
  have hrz : (ranOf f).z = 4 := congrArg Vec3.z hran
  have hfx := fround_bounds (hrx ▸ hx.1) (hrx ▸ hx.2)
  have hfy := fround_bounds (hry ▸ hy.1) (hry ▸ hy.2)
  refine ⟨sphere, body, hshoot, hsb, hrad, hsc, hbc, hmass, hbm, hbr, hss, signOf_cases _,
    signOf_cases _, hran, ⟨hrx ▸ hx.1, hrx ▸ hx.2, hry ▸ hy.1, hry ▸ hy.2⟩, hv, ?_, ?_, ?_, ?_,
    ?_⟩
  · rw [hv]
    show fround (ranOf f).z = 4
    rw [hrz, fround_four]
  · rw [hv]; exact hfx.1
  · rw [hv]; exact hfx.2
  · rw [hv]; exact hfy.1
  · rw [hv]; exact hfy.2

/-- C11 amended, on the example world at tick 2, with sign draws 1/4 (minus) and 3/4
(plus) and magnitude draws 1/2 and 1/2: the shot appends this sphere and this body,
and the velocity of the body is (2, -2, 4). -/
theorem spawned_sphere_launch_witness :
    ∃ (sphere : Shape) (body : Body),
      animate.shoot envExample (frameExample 2 1000) worldExample
        = (.ok (),
            { worldExample with
              scene.children := worldExample.scene.children ++ [sphere]
              dynamicsWorld := worldExample.dynamicsWorld ++ [body]
              calls := worldExample.calls ++ [Call.addRigidBody 2,
                Call.onBody 2 (.setLinearVelocity (ranOf (frameExample 2 1000)))]
              glcanvas := some
                { camera := ⟨⟨0, 3 / 2, 5⟩, ⟨1, 0, 0⟩, ⟨0, 1, 0⟩⟩, parsed := [2],
                  active := false }
              isShot1 := true }) ∧
      sphere.radius = some (6 / 10) ∧ sphere.mass = 1 / 10 ∧
      body.mass = 1 / 10 ∧ body.restitution = 1 / 10 ∧
      sphere.shapes = [⟨.sphere, none, "blueambient", false⟩] ∧
      ranOf (frameExample 2 1000) = ⟨2, -2, 4⟩ ∧
      body.linearVelocity = ⟨2, -2, 4⟩ := by
  obtain ⟨sphere, body, h1, _, hrad, _, _, hsm, hbm, hbr, hss, _, _, hran, _, hv, _⟩ :=
    spawned_sphere_launch envExample (frameExample 2 1000) worldExample
      { camera := ⟨⟨0, 3 / 2, 5⟩, ⟨1, 0, 0⟩, ⟨0, 1, 0⟩⟩, parsed := [], active := false }
      (by decide) (by decide) rfl (by norm_num [frameExample])
      (by norm_num [frameExample])
  have hr : ranOf (frameExample 2 1000) = ⟨2, -2, 4⟩ := by
    rw [hran]
    norm_num [signOf, frameExample]
  have hf : (⟨2, -2, 4⟩ : Vec3).fround = ⟨2, -2, 4⟩ := by decide!
  refine ⟨sphere, body, h1, hrad, hsm, hbm, hbr, hss, hr, ?_⟩
  rw [hv, hr, hf]

end Particles3D
